import Mathlib

/-!
Verification of the statistics aggregation layer of the Saints Encyclopedia
web application (src/web/lib/queries.ts and src/web/app/api/leaders/route.ts).

The relational store is modelled as lists of typed rows; each SQL query of the
source is translated into an executable Lean function over that model.  SQL
aggregate semantics are kept: SUM over an empty row set is NULL (none),
COUNT(DISTINCT c) counts distinct values, COALESCE picks the first non-null
argument, a scalar aggregate subquery always yields exactly one row, and JOIN
duplicates rows per matching partner.
-/

namespace SaintsStats

/-- SQL SUM over an integer column: NULL (none) on an empty row set. -/
def sqlSum (l : List Int) : Option Int := if l.isEmpty then none else some l.sum

/-- SQL COALESCE over three nullable values: the first non-null one. -/
def coalesce3 (a b c : Option Int) : Option Int :=
  (a.orElse fun _ => b).orElse fun _ => c

/-- COUNT(DISTINCT col): the number of distinct values in a column list. -/
def countDistinct (l : List String) : Nat := l.dedup.length

/-- Ordered insertion used to model SQL ORDER BY. -/
def insertLe {α : Type} (le : α → α → Bool) (a : α) : List α → List α
  | [] => [a]
  | b :: t => if le a b then a :: b :: t else b :: insertLe le a t

/-- Model of SQL ORDER BY: stable sort by the given comparison. -/
def sortBy {α : Type} (le : α → α → Bool) : List α → List α
  | [] => []
  | a :: t => insertLe le a (sortBy le t)

/-- A row of the games table (only the columns the modelled queries read). -/
structure Game where
  game_id : String
  season : Int
  game_date : String
  game_type : String
deriving DecidableEq

/-- A row of the players table; pfa_url marks recognized identities. -/
structure Player where
  player_id : String
  player_name : String
  pfa_url : Option String
  position : Option String
deriving DecidableEq

/-- A row of player_passing. -/
structure PassRow where
  game_id : String
  player_id : String
  att : Int
  com : Int
  yds : Int
  td : Int
  int_thrown : Int
  sacked : Int
  rtg : Int
deriving DecidableEq

/-- A row of player_rushing. -/
structure RushRow where
  game_id : String
  player_id : String
  att : Int
  yds : Int
  td : Int
deriving DecidableEq

/-- A row of player_receiving (the rec column is called receptions here). -/
structure RecvRow where
  game_id : String
  player_id : String
  receptions : Int
  yds : Int
  td : Int
deriving DecidableEq

/-- A row of player_defense. -/
structure DefRow where
  game_id : String
  player_id : String
  tkl : Int
  tfl : Int
  qh : Int
  pd : Int
  ff : Int
deriving DecidableEq

/-- A row of player_sacks. -/
structure SackRow where
  game_id : String
  player_id : String
  sacks : Int
  yds : Int
deriving DecidableEq

/-- A row of player_interceptions. -/
structure IntRow where
  game_id : String
  player_id : String
  int_count : Int
  yds : Int
  td : Int
deriving DecidableEq

/-- The relational store read by the query layer. -/
structure DB where
  games : List Game
  players : List Player
  player_passing : List PassRow
  player_rushing : List RushRow
  player_receiving : List RecvRow
  player_defense : List DefRow
  player_sacks : List SackRow
  player_interceptions : List IntRow
deriving DecidableEq

/-- JOIN games g ON t.game_id = g.game_id for a stat table. -/
def joinGames {α : Type} (db : DB) (gid : α → String) (rows : List α) : List (α × Game) :=
  rows.flatMap fun r => (db.games.filter fun g => decide (g.game_id = gid r)).map fun g => (r, g)

/-- The passing rows of one player. -/
def passRowsOf (db : DB) (pid : String) : List PassRow :=
  db.player_passing.filter fun r => decide (r.player_id = pid)

/-- The rushing rows of one player. -/
def rushRowsOf (db : DB) (pid : String) : List RushRow :=
  db.player_rushing.filter fun r => decide (r.player_id = pid)

/-- The receiving rows of one player. -/
def recvRowsOf (db : DB) (pid : String) : List RecvRow :=
  db.player_receiving.filter fun r => decide (r.player_id = pid)

/-- The defense rows of one player. -/
def defRowsOf (db : DB) (pid : String) : List DefRow :=
  db.player_defense.filter fun r => decide (r.player_id = pid)

/-- The sack rows of one player. -/
def sackRowsOf (db : DB) (pid : String) : List SackRow :=
  db.player_sacks.filter fun r => decide (r.player_id = pid)

/-- The interception rows of one player. -/
def intRowsOf (db : DB) (pid : String) : List IntRow :=
  db.player_interceptions.filter fun r => decide (r.player_id = pid)

/-- Result row of the player_defense scalar subquery of getPlayerCareerDefense
(no game-type filter in that query). -/
structure DefCareerSub where
  tkl : Option Int
  tfl : Option Int
  qh : Option Int
  pd_count : Option Int
  ff : Option Int
  games : Nat
  first_season : Option Int
  last_season : Option Int
deriving DecidableEq

/-- Result row of the player_sacks scalar subquery of getPlayerCareerDefense. -/
structure SackCareerSub where
  sacks : Option Int
  games : Nat
  first_season : Option Int
  last_season : Option Int
deriving DecidableEq

/-- Result row of the player_interceptions scalar subquery of getPlayerCareerDefense. -/
structure IntCareerSub where
  int_count : Option Int
  int_yds : Option Int
  int_td : Option Int
  games : Nat
  first_season : Option Int
  last_season : Option Int
deriving DecidableEq

/-- The player_defense scalar subquery of getPlayerCareerDefense: sums, distinct
game count and season range over the player's tackle rows joined to games. -/
def defCareerSub (db : DB) (pid : String) : DefCareerSub :=
  let rows := joinGames db (fun r => r.game_id) (defRowsOf db pid)
  { tkl := sqlSum (rows.map fun rg => rg.1.tkl)
    tfl := sqlSum (rows.map fun rg => rg.1.tfl)
    qh := sqlSum (rows.map fun rg => rg.1.qh)
    pd_count := sqlSum (rows.map fun rg => rg.1.pd)
    ff := sqlSum (rows.map fun rg => rg.1.ff)
    games := countDistinct (rows.map fun rg => rg.1.game_id)
    first_season := (rows.map fun rg => rg.2.season).min?
    last_season := (rows.map fun rg => rg.2.season).max? }

/-- The player_sacks scalar subquery of getPlayerCareerDefense. -/
def sackCareerSub (db : DB) (pid : String) : SackCareerSub :=
  let rows := joinGames db (fun r => r.game_id) (sackRowsOf db pid)
  { sacks := sqlSum (rows.map fun rg => rg.1.sacks)
    games := countDistinct (rows.map fun rg => rg.1.game_id)
    first_season := (rows.map fun rg => rg.2.season).min?
    last_season := (rows.map fun rg => rg.2.season).max? }

/-- The player_interceptions scalar subquery of getPlayerCareerDefense. -/
def intCareerSub (db : DB) (pid : String) : IntCareerSub :=
  let rows := joinGames db (fun r => r.game_id) (intRowsOf db pid)
  { int_count := sqlSum (rows.map fun rg => rg.1.int_count)
    int_yds := sqlSum (rows.map fun rg => rg.1.yds)
    int_td := sqlSum (rows.map fun rg => rg.1.td)
    games := countDistinct (rows.map fun rg => rg.1.game_id)
    first_season := (rows.map fun rg => rg.2.season).min?
    last_season := (rows.map fun rg => rg.2.season).max? }

/-- The career-defense summary row returned by getPlayerCareerDefense. -/
structure CareerDefenseRow where
  tkl : Int
  tfl : Int
  qh : Int
  pd_count : Int
  ff : Int
  sacks : Int
  int_count : Int
  int_yds : Int
  int_td : Int
  games : Nat
  first_season : Option Int
  last_season : Option Int
deriving DecidableEq

/-- getPlayerCareerDefense: the three scalar subqueries are LEFT JOINed onto a
one-row FROM clause, so the outer MIN and MAX aggregates range over that single
joined row and reduce to the COALESCEd value they are applied to. -/
def getPlayerCareerDefense (db : DB) (pid : String) : CareerDefenseRow :=
  let d := defCareerSub db pid
  let s := sackCareerSub db pid
  let i := intCareerSub db pid
  { tkl := d.tkl.getD 0
    tfl := d.tfl.getD 0
    qh := d.qh.getD 0
    pd_count := d.pd_count.getD 0
    ff := d.ff.getD 0
    sacks := s.sacks.getD 0
    int_count := i.int_count.getD 0
    int_yds := i.int_yds.getD 0
    int_td := i.int_td.getD 0
    games := d.games + s.games + i.games
    first_season := coalesce3 d.first_season s.first_season i.first_season
    last_season := coalesce3 d.last_season s.last_season i.last_season }

/-- The player_defense rows of one player joined to games and restricted to
regular-season games, as in the def subquery of getCareerDefensiveLeaders. -/
def defLeadRows (db : DB) (pid : String) : List (DefRow × Game) :=
  (joinGames db (fun r => r.game_id) (defRowsOf db pid)).filter fun rg =>
    decide (rg.2.game_type = "regular")

/-- The player_sacks rows of one player joined to games, regular games only. -/
def sackLeadRows (db : DB) (pid : String) : List (SackRow × Game) :=
  (joinGames db (fun r => r.game_id) (sackRowsOf db pid)).filter fun rg =>
    decide (rg.2.game_type = "regular")

/-- The player_interceptions rows of one player joined to games, regular games only. -/
def intLeadRows (db : DB) (pid : String) : List (IntRow × Game) :=
  (joinGames db (fun r => r.game_id) (intRowsOf db pid)).filter fun rg =>
    decide (rg.2.game_type = "regular")

/-- Distinct regular-season game count of a player in player_defense. -/
def defLeadDistinctGames (db : DB) (pid : String) : Nat :=
  countDistinct ((defLeadRows db pid).map fun rg => rg.1.game_id)

/-- Distinct regular-season game count of a player in player_sacks. -/
def sackLeadDistinctGames (db : DB) (pid : String) : Nat :=
  countDistinct ((sackLeadRows db pid).map fun rg => rg.1.game_id)

/-- Distinct regular-season game count of a player in player_interceptions. -/
def intLeadDistinctGames (db : DB) (pid : String) : Nat :=
  countDistinct ((intLeadRows db pid).map fun rg => rg.1.game_id)

/-- An output row of getCareerDefensiveLeaders. -/
structure DefLeaderRow where
  player_id : String
  player_name : String
  tkl : Int
  tfl : Int
  qh : Int
  pd_count : Int
  ff : Int
  sacks : Int
  int_count : Int
  games : Nat
deriving DecidableEq

/-- One row of getCareerDefensiveLeaders for universe member id i joined to
player row p: each LEFT JOINed per-source aggregate COALESCEs to zero when the
source has no regular-season rows for the player, and games adds the three
per-source distinct game counts. -/
def mkDefLeaderRow (db : DB) (i : String) (p : Player) : DefLeaderRow :=
  { player_id := p.player_id
    player_name := p.player_name
    tkl := (sqlSum ((defLeadRows db i).map fun rg => rg.1.tkl)).getD 0
    tfl := (sqlSum ((defLeadRows db i).map fun rg => rg.1.tfl)).getD 0
    qh := (sqlSum ((defLeadRows db i).map fun rg => rg.1.qh)).getD 0
    pd_count := (sqlSum ((defLeadRows db i).map fun rg => rg.1.pd)).getD 0
    ff := (sqlSum ((defLeadRows db i).map fun rg => rg.1.ff)).getD 0
    sacks := (sqlSum ((sackLeadRows db i).map fun rg => rg.1.sacks)).getD 0
    int_count := (sqlSum ((intLeadRows db i).map fun rg => rg.1.int_count)).getD 0
    games := defLeadDistinctGames db i + sackLeadDistinctGames db i + intLeadDistinctGames db i }

/-- UNION (set union) of the distinct player ids of the three defensive tables. -/
def careerDefIds (db : DB) : List String :=
  (db.player_defense.map (fun r => r.player_id)
    ++ db.player_sacks.map (fun r => r.player_id)
    ++ db.player_interceptions.map (fun r => r.player_id)).dedup

/-- The career-defense leaderboard universe: the id union JOINed to the players
table, keeping recognized identities only, one aggregate row per joined player. -/
def careerDefUniverseRows (db : DB) : List DefLeaderRow :=
  (careerDefIds db).flatMap fun i =>
    ((db.players.filter fun p => decide (p.player_id = i)).filter fun p =>
      p.pfa_url.isSome).map (mkDefLeaderRow db i)

/-- getCareerDefensiveLeaders: the universe ordered by sacks descending, first
limit rows. -/
def getCareerDefensiveLeaders (db : DB) (limit : Nat) : List DefLeaderRow :=
  (sortBy (fun a b => decide (b.sacks ≤ a.sacks)) (careerDefUniverseRows db)).take limit

/-- Distinct seasons of a joined row list, in first-appearance order
(GROUP BY g.season). -/
def seasonKeys {α : Type} (rows : List (α × Game)) : List Int :=
  (rows.map fun rg => rg.2.season).dedup

/-- The joined rows falling in one season. -/
def rowsInSeason {α : Type} (rows : List (α × Game)) (s : Int) : List (α × Game) :=
  rows.filter fun rg => decide (rg.2.season = s)

/-- Distinct game count of a player in player_defense within one season
(no game-type filter, as in getPlayerSeasonDefense). -/
def defSeasonDistinctGames (db : DB) (pid : String) (s : Int) : Nat :=
  countDistinct ((rowsInSeason (joinGames db (fun r => r.game_id) (defRowsOf db pid)) s).map
    fun rg => rg.1.game_id)

/-- Distinct game count of a player in player_sacks within one season. -/
def sackSeasonDistinctGames (db : DB) (pid : String) (s : Int) : Nat :=
  countDistinct ((rowsInSeason (joinGames db (fun r => r.game_id) (sackRowsOf db pid)) s).map
    fun rg => rg.1.game_id)

/-- Distinct game count of a player in player_interceptions within one season. -/
def intSeasonDistinctGames (db : DB) (pid : String) (s : Int) : Nat :=
  countDistinct ((rowsInSeason (joinGames db (fun r => r.game_id) (intRowsOf db pid)) s).map
    fun rg => rg.1.game_id)

/-- A per-season partial row of the inner UNION ALL of getPlayerSeasonDefense:
stat columns of the other two sources are padded with literal zeros. -/
structure PlayerSeasonPartial where
  season : Int
  tkl : Int
  tfl : Int
  qh : Int
  pd_count : Int
  ff : Int
  sacks : Int
  int_count : Int
  games : Nat
deriving DecidableEq

/-- The per-season partial row of the player_defense branch of
getPlayerSeasonDefense for one season. -/
def mkDefSeasonPartial (db : DB) (pid : String) (s : Int) : PlayerSeasonPartial :=
  let grp := rowsInSeason (joinGames db (fun r => r.game_id) (defRowsOf db pid)) s
  { season := s
    tkl := (grp.map fun rg => rg.1.tkl).sum
    tfl := (grp.map fun rg => rg.1.tfl).sum
    qh := (grp.map fun rg => rg.1.qh).sum
    pd_count := (grp.map fun rg => rg.1.pd).sum
    ff := (grp.map fun rg => rg.1.ff).sum
    sacks := 0
    int_count := 0
    games := defSeasonDistinctGames db pid s }

/-- The per-season partial row of the player_sacks branch. -/
def mkSackSeasonPartial (db : DB) (pid : String) (s : Int) : PlayerSeasonPartial :=
  { season := s
    tkl := 0, tfl := 0, qh := 0, pd_count := 0, ff := 0
    sacks := ((rowsInSeason (joinGames db (fun r => r.game_id) (sackRowsOf db pid)) s).map
      fun rg => rg.1.sacks).sum
    int_count := 0
    games := sackSeasonDistinctGames db pid s }

/-- The per-season partial row of the player_interceptions branch. -/
def mkIntSeasonPartial (db : DB) (pid : String) (s : Int) : PlayerSeasonPartial :=
  { season := s
    tkl := 0, tfl := 0, qh := 0, pd_count := 0, ff := 0
    sacks := 0
    int_count := ((rowsInSeason (joinGames db (fun r => r.game_id) (intRowsOf db pid)) s).map
      fun rg => rg.1.int_count).sum
    games := intSeasonDistinctGames db pid s }

/-- The player_defense branch of getPlayerSeasonDefense. -/
def defSeasonBranch (db : DB) (pid : String) : List PlayerSeasonPartial :=
  (seasonKeys (joinGames db (fun r => r.game_id) (defRowsOf db pid))).map
    (mkDefSeasonPartial db pid)

/-- The player_sacks branch of getPlayerSeasonDefense. -/
def sackSeasonBranch (db : DB) (pid : String) : List PlayerSeasonPartial :=
  (seasonKeys (joinGames db (fun r => r.game_id) (sackRowsOf db pid))).map
    (mkSackSeasonPartial db pid)

/-- The player_interceptions branch of getPlayerSeasonDefense. -/
def intSeasonBranch (db : DB) (pid : String) : List PlayerSeasonPartial :=
  (seasonKeys (joinGames db (fun r => r.game_id) (intRowsOf db pid))).map
    (mkIntSeasonPartial db pid)

/-- The UNION ALL feeding the outer query of getPlayerSeasonDefense. -/
def playerSeasonCombined (db : DB) (pid : String) : List PlayerSeasonPartial :=
  defSeasonBranch db pid ++ sackSeasonBranch db pid ++ intSeasonBranch db pid

/-- An output row of getPlayerSeasonDefense. -/
structure PlayerSeasonDefRow where
  season : Int
  tkl : Int
  tfl : Int
  qh : Int
  pd_count : Int
  ff : Int
  sacks : Int
  int_count : Int
  games : Nat
deriving DecidableEq

/-- The regrouped output row of getPlayerSeasonDefense for one season: every
stat column is summed across the combined group while games takes MAX over the
group. -/
def mkPlayerSeasonDefRow (db : DB) (pid : String) (s : Int) : PlayerSeasonDefRow :=
  let grp := (playerSeasonCombined db pid).filter fun c => decide (c.season = s)
  { season := s
    tkl := (grp.map fun c => c.tkl).sum
    tfl := (grp.map fun c => c.tfl).sum
    qh := (grp.map fun c => c.qh).sum
    pd_count := (grp.map fun c => c.pd_count).sum
    ff := (grp.map fun c => c.ff).sum
    sacks := (grp.map fun c => c.sacks).sum
    int_count := (grp.map fun c => c.int_count).sum
    games := grp.foldl (fun m c => Nat.max m c.games) 0 }

/-- getPlayerSeasonDefense: the three branches are concatenated (UNION ALL) and
regrouped by season, ordered by season. -/
def getPlayerSeasonDefense (db : DB) (pid : String) : List PlayerSeasonDefRow :=
  sortBy (fun a b => decide (a.season ≤ b.season))
    ((((playerSeasonCombined db pid).map fun c => c.season).dedup).map
      (mkPlayerSeasonDefRow db pid))

/-- All player_defense rows joined to games, regular-season games only
(the def branch row source of getSeasonDefensiveRecords). -/
def defRecordRows (db : DB) : List (DefRow × Game) :=
  (joinGames db (fun r => r.game_id) db.player_defense).filter fun rg =>
    decide (rg.2.game_type = "regular")

/-- All player_sacks rows joined to games, regular-season games only. -/
def sackRecordRows (db : DB) : List (SackRow × Game) :=
  (joinGames db (fun r => r.game_id) db.player_sacks).filter fun rg =>
    decide (rg.2.game_type = "regular")

/-- All player_interceptions rows joined to games, regular-season games only. -/
def intRecordRows (db : DB) : List (IntRow × Game) :=
  (joinGames db (fun r => r.game_id) db.player_interceptions).filter fun rg =>
    decide (rg.2.game_type = "regular")

/-- Regular-season distinct game count in player_defense for one player and season. -/
def defRecordDistinctGames (db : DB) (pid : String) (s : Int) : Nat :=
  countDistinct (((defRecordRows db).filter fun rg =>
    decide (rg.1.player_id = pid ∧ rg.2.season = s)).map fun rg => rg.1.game_id)

/-- Regular-season distinct game count in player_sacks for one player and season. -/
def sackRecordDistinctGames (db : DB) (pid : String) (s : Int) : Nat :=
  countDistinct (((sackRecordRows db).filter fun rg =>
    decide (rg.1.player_id = pid ∧ rg.2.season = s)).map fun rg => rg.1.game_id)

/-- Regular-season distinct game count in player_interceptions for one player and season. -/
def intRecordDistinctGames (db : DB) (pid : String) (s : Int) : Nat :=
  countDistinct (((intRecordRows db).filter fun rg =>
    decide (rg.1.player_id = pid ∧ rg.2.season = s)).map fun rg => rg.1.game_id)

/-- A per-(player, season) partial row of the inner UNION ALL of
getSeasonDefensiveRecords. -/
structure RecordPartial where
  player_id : String
  season : Int
  tkl : Int
  tfl : Int
  qh : Int
  pd_count : Int
  ff : Int
  sacks : Int
  int_count : Int
  games : Nat
deriving DecidableEq

/-- The per-(player, season) partial row of the player_defense branch of
getSeasonDefensiveRecords. -/
def mkDefRecordPartial (db : DB) (k : String × Int) : RecordPartial :=
  let grp := (defRecordRows db).filter fun rg =>
    decide (rg.1.player_id = k.1 ∧ rg.2.season = k.2)
  { player_id := k.1
    season := k.2
    tkl := (grp.map fun rg => rg.1.tkl).sum
    tfl := (grp.map fun rg => rg.1.tfl).sum
    qh := (grp.map fun rg => rg.1.qh).sum
    pd_count := (grp.map fun rg => rg.1.pd).sum
    ff := (grp.map fun rg => rg.1.ff).sum
    sacks := 0
    int_count := 0
    games := defRecordDistinctGames db k.1 k.2 }

/-- The per-(player, season) partial row of the player_sacks branch. -/
def mkSackRecordPartial (db : DB) (k : String × Int) : RecordPartial :=
  { player_id := k.1
    season := k.2
    tkl := 0, tfl := 0, qh := 0, pd_count := 0, ff := 0
    sacks := (((sackRecordRows db).filter fun rg =>
      decide (rg.1.player_id = k.1 ∧ rg.2.season = k.2)).map fun rg => rg.1.sacks).sum
    int_count := 0
    games := sackRecordDistinctGames db k.1 k.2 }

/-- The per-(player, season) partial row of the player_interceptions branch. -/
def mkIntRecordPartial (db : DB) (k : String × Int) : RecordPartial :=
  { player_id := k.1
    season := k.2
    tkl := 0, tfl := 0, qh := 0, pd_count := 0, ff := 0
    sacks := 0
    int_count := (((intRecordRows db).filter fun rg =>
      decide (rg.1.player_id = k.1 ∧ rg.2.season = k.2)).map fun rg => rg.1.int_count).sum
    games := intRecordDistinctGames db k.1 k.2 }

/-- The player_defense branch of getSeasonDefensiveRecords. -/
def defRecordBranch (db : DB) : List RecordPartial :=
  (((defRecordRows db).map fun rg => (rg.1.player_id, rg.2.season)).dedup).map
    (mkDefRecordPartial db)

/-- The player_sacks branch of getSeasonDefensiveRecords. -/
def sackRecordBranch (db : DB) : List RecordPartial :=
  (((sackRecordRows db).map fun rg => (rg.1.player_id, rg.2.season)).dedup).map
    (mkSackRecordPartial db)

/-- The player_interceptions branch of getSeasonDefensiveRecords. -/
def intRecordBranch (db : DB) : List RecordPartial :=
  (((intRecordRows db).map fun rg => (rg.1.player_id, rg.2.season)).dedup).map
    (mkIntRecordPartial db)

/-- The UNION ALL feeding the outer query of getSeasonDefensiveRecords. -/
def seasonRecordCombined (db : DB) : List RecordPartial :=
  defRecordBranch db ++ sackRecordBranch db ++ intRecordBranch db

/-- An output row of getSeasonDefensiveRecords. -/
structure SeasonDefRecordRow where
  player_id : String
  player_name : String
  season : Int
  tkl : Int
  tfl : Int
  qh : Int
  pd_count : Int
  ff : Int
  sacks : Int
  int_count : Int
  games : Nat
deriving DecidableEq

/-- The combined partials JOINed to the players table, restricted to recognized
identities (the row set the outer query of getSeasonDefensiveRecords groups). -/
def seasonRecordJoined (db : DB) : List (RecordPartial × Player) :=
  (seasonRecordCombined db).flatMap fun c =>
    ((db.players.filter fun p => decide (p.player_id = c.player_id)).filter fun p =>
      p.pfa_url.isSome).map fun p => (c, p)

/-- The output row of getSeasonDefensiveRecords for one (player, season) group.
The outer SELECT applies no aggregate function, so every stat column is taken
from one unspecified row of the group; that unspecified pick is modelled by the
choose parameter (a valid choose returns a member of any non-empty list). -/
def mkSeasonRecordRow (db : DB) (choose : List RecordPartial → RecordPartial)
    (k : String × Int) : SeasonDefRecordRow :=
  let grp := (seasonRecordJoined db).filter fun cp =>
    decide (cp.1.player_id = k.1 ∧ cp.1.season = k.2)
  let rep := choose (grp.map fun cp => cp.1)
  { player_id := k.1
    player_name := (grp.map fun cp => cp.2.player_name).headD ""
    season := k.2
    tkl := rep.tkl, tfl := rep.tfl, qh := rep.qh, pd_count := rep.pd_count, ff := rep.ff
    sacks := rep.sacks
    int_count := rep.int_count
    games := rep.games }

/-- getSeasonDefensiveRecords: one representative row per (player, season)
group, ordered by sacks descending, first limit rows. -/
def getSeasonDefensiveRecords (db : DB)
    (choose : List RecordPartial → RecordPartial) (limit : Nat) : List SeasonDefRecordRow :=
  (sortBy (fun a b => decide (b.sacks ≤ a.sacks))
    ((((seasonRecordJoined db).map fun cp => (cp.1.player_id, cp.1.season)).dedup).map
      (mkSeasonRecordRow db choose))).take limit

/-- The career passing summary row of getPlayerCareerPassing. -/
structure CareerPassRow where
  att : Option Int
  com : Option Int
  yds : Option Int
  td : Option Int
  int_thrown : Option Int
  sacked : Option Int
  games : Nat
  first_season : Option Int
  last_season : Option Int
deriving DecidableEq

/-- getPlayerCareerPassing: sums over the player's passing rows joined to games
(no game-type filter in this query); games counts distinct game ids of the
joined rows. -/
def getPlayerCareerPassing (db : DB) (pid : String) : CareerPassRow :=
  let rows := joinGames db (fun r => r.game_id) (passRowsOf db pid)
  { att := sqlSum (rows.map fun rg => rg.1.att)
    com := sqlSum (rows.map fun rg => rg.1.com)
    yds := sqlSum (rows.map fun rg => rg.1.yds)
    td := sqlSum (rows.map fun rg => rg.1.td)
    int_thrown := sqlSum (rows.map fun rg => rg.1.int_thrown)
    sacked := sqlSum (rows.map fun rg => rg.1.sacked)
    games := countDistinct (rows.map fun rg => rg.1.game_id)
    first_season := (rows.map fun rg => rg.2.season).min?
    last_season := (rows.map fun rg => rg.2.season).max? }

/-- Passing rows joined to their player and game and restricted to one season,
regular-season games and recognized players: the row set grouped by
getSeasonPassingLeaders. -/
def seasonPassContrib (db : DB) (year : Int) : List (PassRow × Player × Game) :=
  (db.player_passing.flatMap fun r =>
    (db.players.filter fun p => decide (p.player_id = r.player_id)).flatMap fun p =>
      (db.games.filter fun g => decide (g.game_id = r.game_id)).map fun g =>
        (r, p, g)).filter fun t =>
    decide (t.2.2.season = year) && decide (t.2.2.game_type = "regular") && t.2.1.pfa_url.isSome

/-- The group of contributing rows of one player in getSeasonPassingLeaders. -/
def seasonPassGroup (db : DB) (year : Int) (pid : String) : List (PassRow × Player × Game) :=
  (seasonPassContrib db year).filter fun t => decide (t.1.player_id = pid)

/-- An output row of getSeasonPassingLeaders. -/
structure SeasonPassLeaderRow where
  player_id : String
  player_name : String
  att : Int
  com : Int
  yds : Int
  td : Int
  int_thrown : Int
  games : Nat
deriving DecidableEq

/-- The grouped row of one player in getSeasonPassingLeaders (the group key is
pp.player_id, which the join equates with p.player_id); games is COUNT( * ),
the size of the group, not a distinct count. -/
def mkSeasonPassRow (db : DB) (year : Int) (pid : String) : SeasonPassLeaderRow :=
  let grp := seasonPassGroup db year pid
  { player_id := pid
    player_name := (grp.map fun t => t.2.1.player_name).headD ""
    att := (grp.map fun t => t.1.att).sum
    com := (grp.map fun t => t.1.com).sum
    yds := (grp.map fun t => t.1.yds).sum
    td := (grp.map fun t => t.1.td).sum
    int_thrown := (grp.map fun t => t.1.int_thrown).sum
    games := grp.length }

/-- getSeasonPassingLeaders: one grouped row per contributing player, ordered by
yards descending, LIMIT 5. -/
def getSeasonPassingLeaders (db : DB) (year : Int) : List SeasonPassLeaderRow :=
  let pids := ((seasonPassContrib db year).map fun t => t.1.player_id).dedup
  (sortBy (fun a b => decide (b.yds ≤ a.yds)) (pids.map (mkSeasonPassRow db year))).take 5

/-- Passing rows joined to their player and game, restricted to regular-season
games and recognized players: the row set grouped by getCareerPassingLeaders. -/
def careerPassContrib (db : DB) : List (PassRow × Player × Game) :=
  (db.player_passing.flatMap fun r =>
    (db.players.filter fun p => decide (p.player_id = r.player_id)).flatMap fun p =>
      (db.games.filter fun g => decide (g.game_id = r.game_id)).map fun g =>
        (r, p, g)).filter fun t =>
    decide (t.2.2.game_type = "regular") && t.2.1.pfa_url.isSome

/-- An output row of getCareerPassingLeaders. -/
structure CareerPassLeaderRow where
  player_id : String
  player_name : String
  yds : Int
  td : Int
  int_thrown : Int
  com : Int
  att : Int
  games : Nat
deriving DecidableEq

/-- The grouped row of one player in getCareerPassingLeaders. -/
def mkCareerPassRow (db : DB) (pid : String) : CareerPassLeaderRow :=
  let grp := (careerPassContrib db).filter fun t => decide (t.1.player_id = pid)
  { player_id := pid
    player_name := (grp.map fun t => t.2.1.player_name).headD ""
    yds := (grp.map fun t => t.1.yds).sum
    td := (grp.map fun t => t.1.td).sum
    int_thrown := (grp.map fun t => t.1.int_thrown).sum
    com := (grp.map fun t => t.1.com).sum
    att := (grp.map fun t => t.1.att).sum
    games := countDistinct (grp.map fun t => t.1.game_id) }

/-- getCareerPassingLeaders: the function declares only a limit parameter; the
route passes a game type as a second argument but the declaration has no such
parameter, so that argument is dropped and the regular-season filter of
careerPassContrib always applies. -/
def getCareerPassingLeaders (db : DB) (limit : Nat) : List CareerPassLeaderRow :=
  let pids := ((careerPassContrib db).map fun t => t.1.player_id).dedup
  (sortBy (fun a b => decide (b.yds ≤ a.yds)) (pids.map (mkCareerPassRow db))).take limit

/-- Outcome of the leaders route: either a 400 rejection that dispatches no
query, or a dispatch of one named query function with limit and game type. -/
inductive RouteOutcome where
  | invalid (status : Nat)
  | dispatch (fetcher : String) (limit : Nat) (gameType : String)
deriving DecidableEq

/-- The VALID_GAME_TYPES set of the leaders route. -/
def validGameTypes : List String := ["regular", "playoff", "preseason"]

/-- The scope-by-category fetcher table of the leaders route. -/
def fetcherFor (scope category : String) : Option String :=
  if scope = "career" then
    if category = "passing" then some "getCareerPassingLeaders"
    else if category = "rushing" then some "getCareerRushingLeaders"
    else if category = "receiving" then some "getCareerReceivingLeaders"
    else if category = "defense" then some "getCareerDefensiveLeaders"
    else none
  else if scope = "season" then
    if category = "passing" then some "getSeasonPassingRecords"
    else if category = "rushing" then some "getSeasonRushingRecords"
    else if category = "receiving" then some "getSeasonReceivingRecords"
    else if category = "defense" then some "getSeasonDefensiveRecords"
    else none
  else if scope = "game" then
    if category = "passing" then some "getSingleGamePassingLeaders"
    else if category = "rushing" then some "getSingleGameRushingLeaders"
    else if category = "receiving" then some "getSingleGameReceivingLeaders"
    else if category = "defense" then some "getSingleGameDefensiveLeaders"
    else none
  else none

/-- GET of the leaders route: missing parameters default to career, passing and
regular; an unrecognized game type falls back to regular; an unknown scope or
category returns a 400 error without dispatching any query; otherwise the
looked-up fetcher is invoked with limit 50 and the game type. -/
def routeGET (scopeParam categoryParam gameTypeParam : Option String) : RouteOutcome :=
  let scope := scopeParam.getD "career"
  let category := categoryParam.getD "passing"
  let rawGameType := gameTypeParam.getD "regular"
  let gameType := if rawGameType ∈ validGameTypes then rawGameType else "regular"
  match fetcherFor scope category with
  | none => RouteOutcome.invalid 400
  | some f => RouteOutcome.dispatch f 50 gameType

/-- The passing rows of one player for one game (the pp LEFT JOIN condition of
getPlayerGameLog). -/
def passMatches (db : DB) (pid : String) (g : Game) : List PassRow :=
  db.player_passing.filter fun r => decide (r.game_id = g.game_id ∧ r.player_id = pid)

/-- The rushing rows of one player for one game. -/
def rushMatches (db : DB) (pid : String) (g : Game) : List RushRow :=
  db.player_rushing.filter fun r => decide (r.game_id = g.game_id ∧ r.player_id = pid)

/-- The receiving rows of one player for one game. -/
def recvMatches (db : DB) (pid : String) (g : Game) : List RecvRow :=
  db.player_receiving.filter fun r => decide (r.game_id = g.game_id ∧ r.player_id = pid)

/-- One side of a LEFT JOIN: no match extends the row with NULL, otherwise one
combined row per match. -/
def leftSide {α : Type} (l : List α) : List (Option α) :=
  if l.isEmpty then [none] else l.map some

/-- An output row of getPlayerGameLog: the game columns plus the three
LEFT JOINed category sides, each possibly NULL. -/
structure GameLogRow where
  game_id : String
  season : Int
  game_date : String
  game_type : String
  pass : Option PassRow
  rush : Option RushRow
  recv : Option RecvRow
deriving DecidableEq

/-- The combined rows one game contributes before the WHERE clause. -/
def gameLogCombos (db : DB) (pid : String) (g : Game) : List GameLogRow :=
  (leftSide (passMatches db pid g)).flatMap fun op =>
    (leftSide (rushMatches db pid g)).flatMap fun oru =>
      (leftSide (recvMatches db pid g)).map fun oc =>
        { game_id := g.game_id, season := g.season, game_date := g.game_date
          game_type := g.game_type, pass := op, rush := oru, recv := oc }

/-- The WHERE clause of getPlayerGameLog: at least one category side present,
the game is not preseason, and the optional season filter matches. -/
def gameLogKeep (seasonOpt : Option Int) (row : GameLogRow) : Bool :=
  (row.pass.isSome || row.rush.isSome || row.recv.isSome)
    && decide (row.game_type ≠ "preseason")
    && (match seasonOpt with
        | none => true
        | some s => decide (row.season = s))

/-- getPlayerGameLog: games LEFT JOINed to the player's three offensive
category tables, filtered by the WHERE clause, ordered by date descending. -/
def getPlayerGameLog (db : DB) (pid : String) (seasonOpt : Option Int) : List GameLogRow :=
  sortBy (fun a b => decide (b.game_date ≤ a.game_date))
    ((db.games.flatMap (gameLogCombos db pid)).filter (gameLogKeep seasonOpt))

/-- Whether the pattern list occurs at the head of the text list. -/
def matchesAt : List Char → List Char → Bool
  | [], _ => true
  | _ :: _, [] => false
  | a :: as, b :: bs => decide (a = b) && matchesAt as bs

/-- Whether the pattern list occurs anywhere in the text list. -/
def containsSeq (n : List Char) : List Char → Bool
  | [] => n.isEmpty
  | b :: bs => matchesAt n (b :: bs) || containsSeq n bs

/-- ASCII lowercasing of one character. -/
def lowerChar (c : Char) : Char :=
  if decide ('A' ≤ c) && decide (c ≤ 'Z') then Char.ofNat (c.toNat + 32) else c

/-- Modelled from the spec: the database wrapper module (db.ts) is not in the
source tree, so the LIKE pattern with wildcards on both sides is modelled as
the case-insensitive (ASCII-folded) substring match the spec describes. -/
def nameMatches (name q : String) : Bool :=
  containsSeq (q.toList.map lowerChar) (name.toList.map lowerChar)

/-- ORDER BY ... ASC comparison on a nullable column: NULL sorts before every
value (the ordering used by the scalar subqueries of searchPlayers). -/
def nullsFirstLe (a b : Option Int) : Bool :=
  match a, b with
  | none, _ => true
  | some _, none => false
  | some x, some y => decide (x ≤ y)

/-- The first_season scalar subquery of searchPlayers: the three per-category
MIN rows, ORDER BY 1 ascending (NULL first), LIMIT 1. -/
def pickFirstSeason (branches : List (Option Int)) : Option Int :=
  (sortBy nullsFirstLe branches).headD none

/-- The last_season scalar subquery of searchPlayers: the three per-category
MAX rows, ORDER BY 1 descending (NULL last), LIMIT 1. -/
def pickLastSeason (branches : List (Option Int)) : Option Int :=
  (sortBy (fun a b => nullsFirstLe b a) branches).headD none

/-- The seasons of the games in which one player has a passing row. -/
def passSeasonsOf (db : DB) (pid : String) : List Int :=
  (joinGames db (fun r => r.game_id) (passRowsOf db pid)).map fun rg => rg.2.season

/-- The seasons of the games in which one player has a rushing row. -/
def rushSeasonsOf (db : DB) (pid : String) : List Int :=
  (joinGames db (fun r => r.game_id) (rushRowsOf db pid)).map fun rg => rg.2.season

/-- The seasons of the games in which one player has a receiving row. -/
def recvSeasonsOf (db : DB) (pid : String) : List Int :=
  (joinGames db (fun r => r.game_id) (recvRowsOf db pid)).map fun rg => rg.2.season

/-- An output row of searchPlayers. -/
structure SearchRow where
  player_id : String
  player_name : String
  position : Option String
  first_season : Option Int
  last_season : Option Int
deriving DecidableEq

/-- The searchPlayers row of one player: the annotated first and last season
come from the two three-branch scalar subqueries. -/
def mkSearchRow (db : DB) (p : Player) : SearchRow :=
  { player_id := p.player_id
    player_name := p.player_name
    position := p.position
    first_season := pickFirstSeason
      [(passSeasonsOf db p.player_id).min?, (rushSeasonsOf db p.player_id).min?,
        (recvSeasonsOf db p.player_id).min?]
    last_season := pickLastSeason
      [(passSeasonsOf db p.player_id).max?, (rushSeasonsOf db p.player_id).max?,
        (recvSeasonsOf db p.player_id).max?] }

/-- searchPlayers: recognized players whose name matches the query, DISTINCT
rows, ordered by name, first limit rows. -/
def searchPlayers (db : DB) (q : String) (limit : Nat) : List SearchRow :=
  (sortBy (fun a b => decide (a.player_name ≤ b.player_name))
    ((((db.players.filter fun p => nameMatches p.player_name q).filter fun p =>
      p.pfa_url.isSome).map (mkSearchRow db)).dedup)).take limit

/-- Database of the defense-union example: player P has one player_defense row
in a 2001 game (tkl = 5) and one player_interceptions row in a 1999 game
(int_count = 1), and nothing else. -/
def exDB1 : DB :=
  { games := [⟨"G1", 2001, "2001-09-09", "regular"⟩, ⟨"G2", 1999, "1999-09-12", "regular"⟩]
    players := [⟨"P", "Pat Defender", some "url-p", some "LB"⟩]
    player_passing := []
    player_rushing := []
    player_receiving := []
    player_defense := [⟨"G1", "P", 5, 0, 0, 0, 0⟩]
    player_sacks := []
    player_interceptions := [⟨"G2", "P", 1, 0, 0⟩] }

/-- Database with a single playoff game: recognized player p1 threw for 300
yards in it and the store holds no regular-season data at all. -/
def exDB3 : DB :=
  { games := [⟨"G1", 2009, "2010-01-16", "playoff"⟩]
    players := [⟨"p1", "Drew Passer", some "url-1", some "QB"⟩]
    player_passing := [⟨"G1", "p1", 30, 20, 300, 2, 0, 1, 110⟩]
    player_rushing := []
    player_receiving := []
    player_defense := []
    player_sacks := []
    player_interceptions := [] }

/-- Database where recognized player P has, in the same regular-season 2000
game, one player_defense row (tkl = 5) and one player_sacks row (sacks = 2). -/
def exDB4 : DB :=
  { games := [⟨"G1", 2000, "2000-09-03", "regular"⟩]
    players := [⟨"P", "Pat Defender", some "url-p", some "DE"⟩]
    player_passing := []
    player_rushing := []
    player_receiving := []
    player_defense := [⟨"G1", "P", 5, 1, 0, 0, 0⟩]
    player_sacks := [⟨"G1", "P", 2, 10⟩]
    player_interceptions := [] }

/-- Database where recognized player bo1 has exactly one rushing appearance, in
a 1975 regular-season game, and no passing or receiving rows. -/
def exDB10 : DB :=
  { games := [⟨"G1", 1975, "1975-09-21", "regular"⟩]
    players := [⟨"bo1", "Bob Runner", some "url-b", some "RB"⟩]
    player_passing := []
    player_rushing := [⟨"G1", "bo1", 10, 50, 1⟩]
    player_receiving := []
    player_defense := []
    player_sacks := []
    player_interceptions := [] }

/-- Database where recognized player s1 appears only in player_sacks, with one
row (3 sacks) in a 1980 regular-season game. -/
def exW2 : DB :=
  { games := [⟨"G1", 1980, "1980-09-07", "regular"⟩]
    players := [⟨"s1", "Sam Sacker", some "url-s", some "DE"⟩]
    player_passing := []
    player_rushing := []
    player_receiving := []
    player_defense := []
    player_sacks := [⟨"G1", "s1", 3, 20⟩]
    player_interceptions := [] }

/-- Database where recognized player q1 has one passing row in a regular-season
2005 game and no other stats. -/
def exW6 : DB :=
  { games := [⟨"G1", 2005, "2005-09-11", "regular"⟩, ⟨"G2", 2005, "2005-08-20", "preseason"⟩]
    players := [⟨"q1", "Quinn Thrower", some "url-q", some "QB"⟩]
    player_passing := [⟨"G1", "q1", 10, 5, 100, 1, 0, 0, 90⟩]
    player_rushing := []
    player_receiving := []
    player_defense := []
    player_sacks := []
    player_interceptions := [] }

/-- Database where recognized player i1 appears only in player_interceptions,
with one row (2 interceptions) in a 1970 regular-season game. -/
def exW7 : DB :=
  { games := [⟨"G1", 1970, "1970-09-20", "regular"⟩]
    players := [⟨"i1", "Ivan Picker", some "url-i", some "CB"⟩]
    player_passing := []
    player_rushing := []
    player_receiving := []
    player_defense := []
    player_sacks := []
    player_interceptions := [⟨"G1", "i1", 2, 30, 1⟩] }

/-- A default partial row, used only as the headD fallback of chooseHead. -/
def defaultRecordPartial : RecordPartial :=
  { player_id := "", season := 0, tkl := 0, tfl := 0, qh := 0, pd_count := 0
    ff := 0, sacks := 0, int_count := 0, games := 0 }

/-- A concrete valid choice function for getSeasonDefensiveRecords: take the
first row of the group. -/
def chooseHead (l : List RecordPartial) : RecordPartial :=
  l.headD defaultRecordPartial

/-- The player_defense partial row of player P for season 2000 in exDB4. -/
def exDB4DefPartial : RecordPartial :=
  { player_id := "P", season := 2000, tkl := 5, tfl := 1, qh := 0, pd_count := 0
    ff := 0, sacks := 0, int_count := 0, games := 1 }

/-- The player_sacks partial row of player P for season 2000 in exDB4. -/
def exDB4SackPartial : RecordPartial :=
  { player_id := "P", season := 2000, tkl := 0, tfl := 0, qh := 0, pd_count := 0
    ff := 0, sacks := 2, int_count := 0, games := 1 }

/-- The store exW6 with one extra rushing row: its passing and games tables are
identical to those of exW6. -/
def exW6b : DB :=
  { games := [⟨"G1", 2005, "2005-09-11", "regular"⟩, ⟨"G2", 2005, "2005-08-20", "preseason"⟩]
    players := [⟨"q1", "Quinn Thrower", some "url-q", some "QB"⟩]
    player_passing := [⟨"G1", "q1", 10, 5, 100, 1, 0, 0, 90⟩]
    player_rushing := [⟨"G1", "q1", 3, 12, 0⟩]
    player_receiving := []
    player_defense := []
    player_sacks := []
    player_interceptions := [] }

/-- C1: the claim says the career-defense summary's first_season is the minimum
over whichever sources produced rows, so in the example (a 2001 player_defense
row and a 1999 player_interceptions row) it should be 1999.  Evaluating
getPlayerCareerDefense shows the code instead COALESCEs the per-source ranges
in table-priority order: the row is tkl = 5, sacks = 0, int_count = 1 as
claimed, but first_season is 2001, not 1999. -/
theorem C1_career_defense_season_range_eval :
    getPlayerCareerDefense exDB1 "P" =
      { tkl := 5, tfl := 0, qh := 0, pd_count := 0, ff := 0, sacks := 0,
        int_count := 1, int_yds := 0, int_td := 0, games := 2,
        first_season := some 2001, last_season := some 2001 }
    ∧ (getPlayerCareerDefense exDB1 "P").first_season ≠ some 1999 := by decide

/-- C3: the claim says a leaderboard request with gameType playoff aggregates
playoff games.  The route validates and forwards the playoff game type to the
career-passing fetcher, but that function declares no game-type parameter and
always filters to regular-season games: on a store holding one playoff passing
row (300 yards) the leaderboard is empty; the career summary, in turn, applies
no game-type filter at all and counts the playoff row. -/
theorem C3_leaders_game_type_eval :
    routeGET (some "career") (some "passing") (some "playoff")
      = RouteOutcome.dispatch "getCareerPassingLeaders" 50 "playoff"
    ∧ getCareerPassingLeaders exDB3 50 = []
    ∧ exDB3.games.map (fun g => g.game_type) = ["playoff"]
    ∧ (exDB3.player_passing.map fun r => r.yds) = [300]
    ∧ (getPlayerCareerPassing exDB3 "p1").yds = some 300
    ∧ (getPlayerCareerPassing exDB3 "p1").games = 1 := by decide

/-- C4: the claim says a player with rows in more than one defensive table in
the same season yields one merged row carrying each source's sum.  On a store
where P has a tkl = 5 defense row and a sacks = 2 sack row in the same
regular-season 2000 game, getSeasonDefensiveRecords produces a single row, but
for every valid representative choice its stat columns come from one partial
only: the row never carries tkl = 5 and sacks = 2 together. -/
theorem C4_season_records_merge_eval
    (choose : List RecordPartial → RecordPartial)
    (hch : ∀ l, l ≠ [] → choose l ∈ l) :
    (getSeasonDefensiveRecords exDB4 choose 25).length = 1
    ∧ ∀ r ∈ getSeasonDefensiveRecords exDB4 choose 25,
        r.player_id = "P" ∧ r.season = 2000
        ∧ ¬(r.tkl = 5 ∧ r.sacks = 2)
        ∧ (r.tkl = 5 ∧ r.sacks = 0 ∨ r.tkl = 0 ∧ r.sacks = 2) := by
  have hout : getSeasonDefensiveRecords exDB4 choose 25
      = [{ player_id := "P", player_name := "Pat Defender", season := 2000,
            tkl := (choose [exDB4DefPartial, exDB4SackPartial]).tkl,
            tfl := (choose [exDB4DefPartial, exDB4SackPartial]).tfl,
            qh := (choose [exDB4DefPartial, exDB4SackPartial]).qh,
            pd_count := (choose [exDB4DefPartial, exDB4SackPartial]).pd_count,
            ff := (choose [exDB4DefPartial, exDB4SackPartial]).ff,
            sacks := (choose [exDB4DefPartial, exDB4SackPartial]).sacks,
            int_count := (choose [exDB4DefPartial, exDB4SackPartial]).int_count,
            games := (choose [exDB4DefPartial, exDB4SackPartial]).games }] := rfl
  have hmem := hch [exDB4DefPartial, exDB4SackPartial] (by decide)
  rw [hout]
  rcases (List.mem_cons.mp hmem) with hc | hc
  · rw [hc]
    refine ⟨rfl, ?_⟩
    intro r hr
    rw [List.mem_singleton.mp hr]
    exact ⟨rfl, rfl, by decide, by decide⟩
  · rw [List.mem_singleton.mp hc]
    refine ⟨rfl, ?_⟩
    intro r hr
    rw [List.mem_singleton.mp hr]
    exact ⟨rfl, rfl, by decide, by decide⟩

/-- Witness for C4 at the concrete head-of-group choice. -/
theorem C4_season_records_merge_eval_witness :
    (getSeasonDefensiveRecords exDB4 chooseHead 25).length = 1
    ∧ ∀ r ∈ getSeasonDefensiveRecords exDB4 chooseHead 25,
        r.player_id = "P" ∧ r.season = 2000
        ∧ ¬(r.tkl = 5 ∧ r.sacks = 2)
        ∧ (r.tkl = 5 ∧ r.sacks = 0 ∨ r.tkl = 0 ∧ r.sacks = 2) :=
  C4_season_records_merge_eval chooseHead (by
    intro l hl
    cases l with
    | nil => exact absurd rfl hl
    | cons a t => simp [chooseHead])

/-- C8: a leaders request whose scope is not career, season or game, or whose
category is not passing, rushing, receiving or defense, is rejected with a 400
invalid-parameter outcome that dispatches no query. -/
theorem C8_invalid_scope_category_rejected
    (scopeParam categoryParam gameTypeParam : Option String)
    (h : scopeParam.getD "career" ∉ (["career", "season", "game"] : List String)
      ∨ categoryParam.getD "passing" ∉ (["passing", "rushing", "receiving", "defense"] : List String)) :
    routeGET scopeParam categoryParam gameTypeParam = RouteOutcome.invalid 400 := by
  unfold routeGET
  have hf : fetcherFor (scopeParam.getD "career") (categoryParam.getD "passing") = none := by
    unfold fetcherFor
    rcases h with h | h
    · simp only [List.mem_cons, List.not_mem_nil, or_false, not_or] at h
      obtain ⟨h1, h2, h3⟩ := h
      simp [h1, h2, h3]
    · simp only [List.mem_cons, List.not_mem_nil, or_false, not_or] at h
      obtain ⟨h1, h2, h3, h4⟩ := h
      split_ifs <;> simp [h1, h2, h3, h4]
  simp [hf]

/-- Witness for C8 at a concrete bogus scope. -/
theorem C8_invalid_scope_category_rejected_witness :
    routeGET (some "bogus") none none = RouteOutcome.invalid 400 :=
  C8_invalid_scope_category_rejected (some "bogus") none none (Or.inl (by decide))

/-- C10: the claim says search annotates each player with first_season and
last_season as the min and max season across the union of the player's passing,
rushing and receiving appearances.  For recognized player bo1, whose only
appearance is a rushing row in a regular-season 1975 game, the name search
finds the row but its first_season is NULL: the first_season scalar subquery
orders the three per-category MIN rows ascending with NULL first, so any empty
category hides the true minimum, while the descending last_season pick still
yields 1975. -/
theorem C10_search_first_season_eval :
    (searchPlayers exDB10 "ob" 50).map (fun r => (r.player_id, r.first_season, r.last_season))
      = [("bo1", none, some 1975)]
    ∧ (rushSeasonsOf exDB10 "bo1").min? = some 1975 := by decide

theorem insertLe_perm {α : Type} (le : α → α → Bool) (a : α) (l : List α) :
    (insertLe le a l).Perm (a :: l) := by
  induction l with
  | nil => simp [insertLe]
  | cons b t ih =>
    by_cases h : le a b = true
    · simp [insertLe, h]
    · simp only [insertLe, h, if_false, Bool.false_eq_true]
      exact (ih.cons b).trans (List.Perm.swap a b t)

theorem sortBy_perm {α : Type} (le : α → α → Bool) (l : List α) :
    (sortBy le l).Perm l := by
  induction l with
  | nil => simp [sortBy]
  | cons a t ih => exact (insertLe_perm le a (sortBy le t)).trans (ih.cons a)

theorem mem_sortBy {α : Type} {le : α → α → Bool} {l : List α} {a : α} :
    a ∈ sortBy le l ↔ a ∈ l := (sortBy_perm le l).mem_iff

theorem countP_sortBy {α : Type} (le : α → α → Bool) (l : List α) (p : α → Bool) :
    (sortBy le l).countP p = l.countP p := (sortBy_perm le l).countP_eq p

theorem countP_flatMap {α β : Type} (l : List α) (f : α → List β) (p : β → Bool) :
    ((l.flatMap f).countP p) = (l.map fun a => (f a).countP p).sum := by
  induction l with
  | nil => rfl
  | cons a t ih => simp [List.flatMap_cons, List.countP_append, ih]

theorem flatMap_eq_of_unique {α β : Type} {l : List α} {f : α → List β} {a : α}
    (hmem : a ∈ l) (hnd : l.Nodup) (hz : ∀ b ∈ l, b ≠ a → f b = []) :
    l.flatMap f = f a := by
  induction l with
  | nil => cases hmem
  | cons b t ih =>
    obtain ⟨hbt, hnt⟩ := List.nodup_cons.mp hnd
    by_cases hba : b = a
    · have ht : t.flatMap f = [] := by
        apply List.flatMap_eq_nil_iff.mpr
        intro c hc
        apply hz c (List.mem_cons_of_mem b hc)
        intro hca
        apply hbt
        rw [hba, ← hca]
        exact hc
      simp [List.flatMap_cons, ht, hba]
    · have hb : f b = [] := hz b (List.mem_cons_self b t) hba
      have hat : a ∈ t := by
        rcases List.mem_cons.mp hmem with h | h
        · exact absurd h.symm hba
        · exact h
      simp only [List.flatMap_cons, hb, List.nil_append]
      exact ih hat hnt (fun c hc hne => hz c (List.mem_cons_of_mem b hc) hne)

theorem countP_flatMap_unique {α β : Type} {l : List α} {f : α → List β} {p : β → Bool} {a : α}
    (hmem : a ∈ l) (hnd : l.Nodup) (hz : ∀ b ∈ l, b ≠ a → (f b).countP p = 0) :
    (l.flatMap f).countP p = (f a).countP p := by
  induction l with
  | nil => cases hmem
  | cons b t ih =>
    obtain ⟨hbt, hnt⟩ := List.nodup_cons.mp hnd
    by_cases hba : b = a
    · have ht : (t.flatMap f).countP p = 0 := by
        rw [countP_flatMap]
        apply List.sum_eq_zero
        intro x hx
        rcases List.mem_map.mp hx with ⟨c, hc, rfl⟩
        apply hz c (List.mem_cons_of_mem b hc)
        intro hca
        apply hbt
        rw [hba, ← hca]
        exact hc
      simp [List.flatMap_cons, List.countP_append, ht, hba]
    · have hb : (f b).countP p = 0 := hz b (List.mem_cons_self b t) hba
      have hat : a ∈ t := by
        rcases List.mem_cons.mp hmem with h | h
        · exact absurd h.symm hba
        · exact h
      simp only [List.flatMap_cons, List.countP_append, hb, Nat.zero_add]
      exact ih hat hnt (fun c hc hne => hz c (List.mem_cons_of_mem b hc) hne)

theorem filter_eq_nil_of_not_mem_map {α : Type} {l : List α} {f : α → String} {a : String}
    (h : a ∉ l.map f) : l.filter (fun x => decide (f x = a)) = [] := by
  rw [List.filter_eq_nil_iff]
  intro x hx
  simp only [decide_eq_true_eq]
  intro hfa
  exact h (List.mem_map.mpr ⟨x, hx, hfa⟩)

theorem sum_pos_of_nonneg_of_mem {l : List Int} (h0 : ∀ x ∈ l, 0 ≤ x)
    (hx : ∃ x ∈ l, 0 < x) : 0 < l.sum := by
  induction l with
  | nil => rcases hx with ⟨x, hx, _⟩; cases hx
  | cons a t ih =>
    rcases hx with ⟨x, hx, hpos⟩
    rcases List.mem_cons.mp hx with rfl | hx2
    · have ht : 0 ≤ t.sum := List.sum_nonneg (fun y hy => h0 y (List.mem_cons_of_mem _ hy))
      simp only [List.sum_cons]
      linarith
    · have ha : 0 ≤ a := h0 a (List.mem_cons_self a t)
      have ht := ih (fun y hy => h0 y (List.mem_cons_of_mem _ hy)) ⟨x, hx2, hpos⟩
      simp only [List.sum_cons]
      linarith

theorem filter_eq_single_of_nodup {α : Type} [DecidableEq α] {l : List α} (hnd : l.Nodup) (s : α) :
    l.filter (fun x => decide (x = s)) = if s ∈ l then [s] else [] := by
  induction l with
  | nil => simp
  | cons a t ih =>
    obtain ⟨ha, ht⟩ := List.nodup_cons.mp hnd
    by_cases has : a = s
    · subst has
      have htnil : t.filter (fun x => decide (x = a)) = [] := by
        rw [List.filter_eq_nil_iff]
        intro x hx
        simp only [decide_eq_true_eq]
        rintro rfl
        exact ha hx
      simp [List.filter_cons, htnil, List.mem_cons]
    · rw [List.filter_cons]
      simp only [decide_eq_true_eq, has, if_false]
      rw [ih ht]
      by_cases hs : s ∈ t
      · simp [hs, List.mem_cons]
      · simp [hs, List.mem_cons, Ne.symm has]

theorem countDistinct_eq_of_mem_iff {l1 l2 : List String}
    (h : ∀ a, a ∈ l1 ↔ a ∈ l2) : countDistinct l1 = countDistinct l2 := by
  unfold countDistinct
  apply List.Perm.length_eq
  rw [List.perm_ext_iff_of_nodup (List.nodup_dedup l1) (List.nodup_dedup l2)]
  intro a
  rw [List.mem_dedup, List.mem_dedup]
  exact h a


theorem joinGames_cons {α : Type} (db : DB) (gid : α → String) (r : α) (t : List α) :
    joinGames db gid (r :: t)
      = ((db.games.filter fun g => decide (g.game_id = gid r)).map fun g => (r, g))
        ++ joinGames db gid t := rfl

theorem join_regular_map_eq {α : Type} (db : DB) (gid : α → String) (val : α → Int)
    (l : List α)
    (hl : ∀ r ∈ l, ∃ g ∈ db.games, db.games.filter (fun g2 => decide (g2.game_id = gid r)) = [g]
        ∧ g.game_type = "regular") :
    ((joinGames db gid l).filter fun rg => decide (rg.2.game_type = "regular")).map
        (fun rg => val rg.1) = l.map val := by
  induction l with
  | nil => rfl
  | cons r t ih =>
    rcases hl r (List.mem_cons_self r t) with ⟨g, hgmem, hg, hreg⟩
    rw [joinGames_cons, List.filter_append, List.map_append, hg]
    simp only [List.map_cons, List.map_nil, List.filter_cons, List.filter_nil, hreg]
    simp only [decide_True, if_true]
    rw [ih (fun x hx => hl x (List.mem_cons_of_mem _ hx))]
    rfl

theorem mkDefLeaderRow_player_id (db : DB) (i : String) (p : Player) :
    (mkDefLeaderRow db i p).player_id = p.player_id := rfl

theorem universe_filter_single (db : DB) (pid : String) (p0 : Player)
    (hmem : pid ∈ careerDefIds db)
    (hp : db.players.filter (fun p => decide (p.player_id = pid)) = [p0])
    (hpfa : p0.pfa_url.isSome = true) :
    (careerDefUniverseRows db).filter (fun row => decide (row.player_id = pid))
      = [mkDefLeaderRow db pid p0] := by
  have hp0pid : p0.player_id = pid := by
    have hm : p0 ∈ db.players.filter (fun p => decide (p.player_id = pid)) := by
      rw [hp]; exact List.mem_cons_self p0 []
    have := (List.mem_filter.mp hm).2
    simpa using this
  unfold careerDefUniverseRows
  rw [List.filter_flatMap]
  have hstep : (careerDefIds db).flatMap
      (fun i => (((db.players.filter fun p => decide (p.player_id = i)).filter fun p =>
        p.pfa_url.isSome).map (mkDefLeaderRow db i)).filter fun row => decide (row.player_id = pid))
      = (careerDefIds db).flatMap (fun i => if i = pid then [mkDefLeaderRow db pid p0] else []) := by
    apply List.flatMap_congr
    intro i _
    by_cases hi : i = pid
    · subst hi
      rw [hp]
      simp [List.filter_cons, hpfa, mkDefLeaderRow_player_id, hp0pid]
    · simp only [hi, if_false]
      rw [List.filter_eq_nil_iff]
      intro row hrow
      rcases List.mem_map.mp hrow with ⟨p, hpmem, rfl⟩
      have hpi : p.player_id = i := by
        have := (List.mem_filter.mp (List.mem_filter.mp hpmem).1).2
        simpa using this
      simp only [mkDefLeaderRow_player_id, decide_eq_true_eq, hpi]
      exact hi
  rw [hstep]
  rw [flatMap_eq_of_unique hmem (List.nodup_dedup _)
    (fun b _ hb => by simp [hb])]
  simp


theorem sqlSum_getD_of_ne_nil {l : List Int} (h : l ≠ []) : (sqlSum l).getD 0 = l.sum := by
  cases l with
  | nil => exact absurd rfl h
  | cons x xs => rfl

/-- C2: a recognized player with at least one player_sacks row and no rows in
player_defense or player_interceptions appears exactly once in the
career-defense leaderboard universe, with tkl = 0, int_count = 0 and sacks
equal to the player's summed sack total (each sack row joining to a unique
regular-season game). -/
theorem C2_sacks_only_union_completeness (db : DB) (pid : String) (p0 : Player)
    (hsk : pid ∈ db.player_sacks.map (fun r => r.player_id))
    (hdef : pid ∉ db.player_defense.map (fun r => r.player_id))
    (hint : pid ∉ db.player_interceptions.map (fun r => r.player_id))
    (hp : db.players.filter (fun p => decide (p.player_id = pid)) = [p0])
    (hpfa : p0.pfa_url.isSome = true)
    (href : ∀ r ∈ sackRowsOf db pid, ∃ g ∈ db.games,
        db.games.filter (fun g2 => decide (g2.game_id = r.game_id)) = [g]
        ∧ g.game_type = "regular") :
    (careerDefUniverseRows db).filter (fun row => decide (row.player_id = pid))
        = [mkDefLeaderRow db pid p0]
    ∧ (mkDefLeaderRow db pid p0).tkl = 0
    ∧ (mkDefLeaderRow db pid p0).int_count = 0
    ∧ (mkDefLeaderRow db pid p0).sacks = ((sackRowsOf db pid).map fun r => r.sacks).sum := by
  have hmem : pid ∈ careerDefIds db := by
    unfold careerDefIds
    rw [List.mem_dedup, List.mem_append, List.mem_append]
    exact Or.inl (Or.inr hsk)
  have hdnil : defRowsOf db pid = [] := by
    unfold defRowsOf
    exact filter_eq_nil_of_not_mem_map hdef
  have hinil : intRowsOf db pid = [] := by
    unfold intRowsOf
    exact filter_eq_nil_of_not_mem_map hint
  have hsne : sackRowsOf db pid ≠ [] := by
    rcases List.mem_map.mp hsk with ⟨r, hr, hrpid⟩
    exact List.ne_nil_of_mem (List.mem_filter.mpr ⟨hr, by simp [hrpid]⟩)
  refine ⟨universe_filter_single db pid p0 hmem hp hpfa, ?_, ?_, ?_⟩
  · show (sqlSum ((defLeadRows db pid).map fun rg => rg.1.tkl)).getD 0 = 0
    rw [show defLeadRows db pid = [] by unfold defLeadRows; rw [hdnil]; rfl]
    rfl
  · show (sqlSum ((intLeadRows db pid).map fun rg => rg.1.int_count)).getD 0 = 0
    rw [show intLeadRows db pid = [] by unfold intLeadRows; rw [hinil]; rfl]
    rfl
  · show (sqlSum ((sackLeadRows db pid).map fun rg => rg.1.sacks)).getD 0
      = ((sackRowsOf db pid).map fun r => r.sacks).sum
    have hlead : (sackLeadRows db pid).map (fun rg => rg.1.sacks)
        = (sackRowsOf db pid).map fun r => r.sacks :=
      join_regular_map_eq db (fun r => r.game_id) (fun r => r.sacks) (sackRowsOf db pid) href
    rw [hlead]
    exact sqlSum_getD_of_ne_nil (by
      intro h
      exact hsne (List.map_eq_nil_iff.mp h))

/-- Witness for C2 at a store where recognized player s1 has a single sack row
in a regular-season 1980 game and no other defensive rows. -/
theorem C2_sacks_only_union_completeness_witness :
    (careerDefUniverseRows exW2).filter (fun row => decide (row.player_id = "s1"))
        = [mkDefLeaderRow exW2 "s1" ⟨"s1", "Sam Sacker", some "url-s", some "DE"⟩]
    ∧ (mkDefLeaderRow exW2 "s1" ⟨"s1", "Sam Sacker", some "url-s", some "DE"⟩).tkl = 0
    ∧ (mkDefLeaderRow exW2 "s1" ⟨"s1", "Sam Sacker", some "url-s", some "DE"⟩).int_count = 0
    ∧ (mkDefLeaderRow exW2 "s1" ⟨"s1", "Sam Sacker", some "url-s", some "DE"⟩).sacks
        = ((sackRowsOf exW2 "s1").map fun r => r.sacks).sum :=
  C2_sacks_only_union_completeness exW2 "s1" ⟨"s1", "Sam Sacker", some "url-s", some "DE"⟩
    (by decide) (by decide) (by decide) (by decide) (by decide) (by decide)

/-- C7: every career-defense leaderboard row belongs to a player present in at
least one of the three defensive source tables (so a player absent from all
three never appears), and a recognized player present only in the
interceptions table, with non-negative interception counts and a positive one
in some regular-season game, yields one universe row with tkl = 0, sacks = 0
and int_count > 0. -/
theorem C7_defense_universe_membership :
    (∀ (db : DB) (limit : Nat) (row : DefLeaderRow), row ∈ getCareerDefensiveLeaders db limit →
        row.player_id ∈ db.player_defense.map (fun r => r.player_id)
        ∨ row.player_id ∈ db.player_sacks.map (fun r => r.player_id)
        ∨ row.player_id ∈ db.player_interceptions.map (fun r => r.player_id))
    ∧ (∀ (db : DB) (pid : String) (p0 : Player),
        pid ∉ db.player_defense.map (fun r => r.player_id) →
        pid ∉ db.player_sacks.map (fun r => r.player_id) →
        pid ∈ db.player_interceptions.map (fun r => r.player_id) →
        db.players.filter (fun p => decide (p.player_id = pid)) = [p0] →
        p0.pfa_url.isSome = true →
        (∀ rg ∈ intLeadRows db pid, 0 ≤ rg.1.int_count) →
        (∃ rg ∈ intLeadRows db pid, 0 < rg.1.int_count) →
        (careerDefUniverseRows db).filter (fun row => decide (row.player_id = pid))
            = [mkDefLeaderRow db pid p0]
          ∧ (mkDefLeaderRow db pid p0).tkl = 0
          ∧ (mkDefLeaderRow db pid p0).sacks = 0
          ∧ 0 < (mkDefLeaderRow db pid p0).int_count) := by
  constructor
  · intro db limit row hrow
    unfold getCareerDefensiveLeaders at hrow
    have h1 : row ∈ careerDefUniverseRows db := mem_sortBy.mp (List.mem_of_mem_take hrow)
    rcases List.mem_flatMap.mp h1 with ⟨i, hi, hslot⟩
    rcases List.mem_map.mp hslot with ⟨p, hpmem, rfl⟩
    have hpi : p.player_id = i := by
      have := (List.mem_filter.mp (List.mem_filter.mp hpmem).1).2
      simpa using this
    rw [mkDefLeaderRow_player_id, hpi]
    have hin := List.mem_dedup.mp hi
    rw [List.mem_append, List.mem_append] at hin
    tauto
  · intro db pid p0 hdef hsk hint hp hpfa hnn hpos
    have hmem : pid ∈ careerDefIds db := by
      unfold careerDefIds
      rw [List.mem_dedup, List.mem_append, List.mem_append]
      exact Or.inr hint
    have hdnil : defRowsOf db pid = [] := by
      unfold defRowsOf
      exact filter_eq_nil_of_not_mem_map hdef
    have hsnil : sackRowsOf db pid = [] := by
      unfold sackRowsOf
      exact filter_eq_nil_of_not_mem_map hsk
    refine ⟨universe_filter_single db pid p0 hmem hp hpfa, ?_, ?_, ?_⟩
    · show (sqlSum ((defLeadRows db pid).map fun rg => rg.1.tkl)).getD 0 = 0
      rw [show defLeadRows db pid = [] by unfold defLeadRows; rw [hdnil]; rfl]
      rfl
    · show (sqlSum ((sackLeadRows db pid).map fun rg => rg.1.sacks)).getD 0 = 0
      rw [show sackLeadRows db pid = [] by unfold sackLeadRows; rw [hsnil]; rfl]
      rfl
    · show 0 < (sqlSum ((intLeadRows db pid).map fun rg => rg.1.int_count)).getD 0
      have hne : (intLeadRows db pid).map (fun rg => rg.1.int_count) ≠ [] := by
        rcases hpos with ⟨rg, hrg, _⟩
        exact List.ne_nil_of_mem (List.mem_map.mpr ⟨rg, hrg, rfl⟩)
      rw [sqlSum_getD_of_ne_nil hne]
      apply sum_pos_of_nonneg_of_mem
      · intro x hx
        rcases List.mem_map.mp hx with ⟨rg, hrg, rfl⟩
        exact hnn rg hrg
      · rcases hpos with ⟨rg, hrg, hpos2⟩
        exact ⟨rg.1.int_count, List.mem_map.mpr ⟨rg, hrg, rfl⟩, hpos2⟩

/-- Witness for C7 at a store where recognized player i1 appears only in the
interceptions table, with 2 interceptions in a regular-season 1970 game. -/
theorem C7_defense_universe_membership_witness :
    ((mkDefLeaderRow exW7 "i1" ⟨"i1", "Ivan Picker", some "url-i", some "CB"⟩).player_id
        ∈ exW7.player_defense.map (fun r => r.player_id)
      ∨ (mkDefLeaderRow exW7 "i1" ⟨"i1", "Ivan Picker", some "url-i", some "CB"⟩).player_id
        ∈ exW7.player_sacks.map (fun r => r.player_id)
      ∨ (mkDefLeaderRow exW7 "i1" ⟨"i1", "Ivan Picker", some "url-i", some "CB"⟩).player_id
        ∈ exW7.player_interceptions.map (fun r => r.player_id))
    ∧ ((careerDefUniverseRows exW7).filter (fun row => decide (row.player_id = "i1"))
          = [mkDefLeaderRow exW7 "i1" ⟨"i1", "Ivan Picker", some "url-i", some "CB"⟩]
        ∧ (mkDefLeaderRow exW7 "i1" ⟨"i1", "Ivan Picker", some "url-i", some "CB"⟩).tkl = 0
        ∧ (mkDefLeaderRow exW7 "i1" ⟨"i1", "Ivan Picker", some "url-i", some "CB"⟩).sacks = 0
        ∧ 0 < (mkDefLeaderRow exW7 "i1" ⟨"i1", "Ivan Picker", some "url-i", some "CB"⟩).int_count) :=
  ⟨C7_defense_universe_membership.1 exW7 5
      (mkDefLeaderRow exW7 "i1" ⟨"i1", "Ivan Picker", some "url-i", some "CB"⟩) (by decide),
    C7_defense_universe_membership.2 exW7 "i1" ⟨"i1", "Ivan Picker", some "url-i", some "CB"⟩
      (by decide) (by decide) (by decide) (by decide) (by decide) (by decide) (by decide)⟩

theorem map_filter_key {α β : Type} [DecidableEq α] (keys : List α) (mk : α → β) (key : β → α)
    (hkey : ∀ k, key (mk k) = k) (hnd : keys.Nodup) (s : α) :
    (keys.map mk).filter (fun c => decide (key c = s)) = if s ∈ keys then [mk s] else [] := by
  rw [List.filter_map]
  have hcong : keys.filter ((fun c => decide (key c = s)) ∘ mk)
      = keys.filter (fun k => decide (k = s)) :=
    List.filter_congr (fun k _ => by simp [Function.comp, hkey])
  rw [hcong, filter_eq_single_of_nodup hnd s]
  by_cases hs : s ∈ keys
  · simp [hs]
  · simp [hs]

theorem rowsInSeason_eq_nil_of_not_mem {α : Type} (rows : List (α × Game)) (s : Int)
    (h : s ∉ seasonKeys rows) : rowsInSeason rows s = [] := by
  unfold seasonKeys at h
  rw [List.mem_dedup] at h
  unfold rowsInSeason
  rw [List.filter_eq_nil_iff]
  intro rg hrg
  simp only [decide_eq_true_eq]
  intro hrs
  exact h (List.mem_map.mpr ⟨rg, hrg, hrs⟩)

theorem defSeasonBranch_filter (db : DB) (pid : String) (s : Int) :
    (defSeasonBranch db pid).filter (fun c => decide (c.season = s))
      = if s ∈ seasonKeys (joinGames db (fun r => r.game_id) (defRowsOf db pid))
        then [mkDefSeasonPartial db pid s] else [] := by
  unfold defSeasonBranch
  exact map_filter_key _ (mkDefSeasonPartial db pid) (fun c => c.season) (fun k => rfl)
    (by unfold seasonKeys; exact List.nodup_dedup _) s

theorem sackSeasonBranch_filter (db : DB) (pid : String) (s : Int) :
    (sackSeasonBranch db pid).filter (fun c => decide (c.season = s))
      = if s ∈ seasonKeys (joinGames db (fun r => r.game_id) (sackRowsOf db pid))
        then [mkSackSeasonPartial db pid s] else [] := by
  unfold sackSeasonBranch
  exact map_filter_key _ (mkSackSeasonPartial db pid) (fun c => c.season) (fun k => rfl)
    (by unfold seasonKeys; exact List.nodup_dedup _) s

theorem intSeasonBranch_filter (db : DB) (pid : String) (s : Int) :
    (intSeasonBranch db pid).filter (fun c => decide (c.season = s))
      = if s ∈ seasonKeys (joinGames db (fun r => r.game_id) (intRowsOf db pid))
        then [mkIntSeasonPartial db pid s] else [] := by
  unfold intSeasonBranch
  exact map_filter_key _ (mkIntSeasonPartial db pid) (fun c => c.season) (fun k => rfl)
    (by unfold seasonKeys; exact List.nodup_dedup _) s

theorem foldl_max_if (m : Nat) (b : Prop) [Decidable b] (x : PlayerSeasonPartial) :
    List.foldl (fun m2 c => Nat.max m2 c.games) m (if b then [x] else [])
      = Nat.max m (if b then x.games else 0) := by
  by_cases hb : b
  · simp [hb]
  · simp [hb]

theorem recordPartial_games (db : DB) : ∀ c ∈ seasonRecordCombined db,
    c.games = defRecordDistinctGames db c.player_id c.season
    ∨ c.games = sackRecordDistinctGames db c.player_id c.season
    ∨ c.games = intRecordDistinctGames db c.player_id c.season := by
  intro c hc
  unfold seasonRecordCombined at hc
  rw [List.mem_append, List.mem_append] at hc
  rcases hc with (hc | hc) | hc
  · rcases List.mem_map.mp hc with ⟨k, _, rfl⟩
    exact Or.inl rfl
  · rcases List.mem_map.mp hc with ⟨k, _, rfl⟩
    exact Or.inr (Or.inl rfl)
  · rcases List.mem_map.mp hc with ⟨k, _, rfl⟩
    exact Or.inr (Or.inr rfl)

/-- C5 (amended): career-scope defensive rows (the per-player summary and every
leaderboard universe row) add the three source tables' distinct-game counts; in
season scope the per-player season summary instead takes the maximum of the
three per-season distinct-game counts, and the season-records leaderboard takes
its games value from a single contributing partial, so it equals one of the
three counts rather than their sum. -/
theorem C5_defensive_games_counts :
    (∀ (db : DB) (pid : String),
        (getPlayerCareerDefense db pid).games
          = countDistinct ((joinGames db (fun r => r.game_id) (defRowsOf db pid)).map
              fun rg => rg.1.game_id)
          + countDistinct ((joinGames db (fun r => r.game_id) (sackRowsOf db pid)).map
              fun rg => rg.1.game_id)
          + countDistinct ((joinGames db (fun r => r.game_id) (intRowsOf db pid)).map
              fun rg => rg.1.game_id))
    ∧ (∀ (db : DB) (row : DefLeaderRow), row ∈ careerDefUniverseRows db →
        row.games = defLeadDistinctGames db row.player_id
          + sackLeadDistinctGames db row.player_id + intLeadDistinctGames db row.player_id)
    ∧ (∀ (db : DB) (pid : String) (r : PlayerSeasonDefRow), r ∈ getPlayerSeasonDefense db pid →
        r.games = Nat.max (Nat.max (defSeasonDistinctGames db pid r.season)
          (sackSeasonDistinctGames db pid r.season)) (intSeasonDistinctGames db pid r.season))
    ∧ (∀ (db : DB) (choose : List RecordPartial → RecordPartial),
        (∀ l, l ≠ [] → choose l ∈ l) → ∀ (limit : Nat) (r : SeasonDefRecordRow),
        r ∈ getSeasonDefensiveRecords db choose limit →
        r.games = defRecordDistinctGames db r.player_id r.season
        ∨ r.games = sackRecordDistinctGames db r.player_id r.season
        ∨ r.games = intRecordDistinctGames db r.player_id r.season) := by
  refine ⟨fun db pid => rfl, ?_, ?_, ?_⟩
  · intro db row hrow
    rcases List.mem_flatMap.mp hrow with ⟨i, hi, hslot⟩
    rcases List.mem_map.mp hslot with ⟨p, hpmem, rfl⟩
    have hpi : p.player_id = i := by
      have := (List.mem_filter.mp (List.mem_filter.mp hpmem).1).2
      simpa using this
    rw [mkDefLeaderRow_player_id, hpi]
    rfl
  · intro db pid r hr
    unfold getPlayerSeasonDefense at hr
    have hr2 := mem_sortBy.mp hr
    rcases List.mem_map.mp hr2 with ⟨s, hs, rfl⟩
    have hseason : (mkPlayerSeasonDefRow db pid s).season = s := rfl
    have hgames : (mkPlayerSeasonDefRow db pid s).games
        = ((playerSeasonCombined db pid).filter fun c => decide (c.season = s)).foldl
            (fun m c => Nat.max m c.games) 0 := rfl
    rw [hseason, hgames]
    have hsplit : (playerSeasonCombined db pid).filter (fun c => decide (c.season = s))
        = ((defSeasonBranch db pid).filter fun c => decide (c.season = s))
          ++ ((sackSeasonBranch db pid).filter fun c => decide (c.season = s))
          ++ ((intSeasonBranch db pid).filter fun c => decide (c.season = s)) := by
      unfold playerSeasonCombined
      rw [List.filter_append, List.filter_append]
    rw [hsplit, defSeasonBranch_filter, sackSeasonBranch_filter, intSeasonBranch_filter,
      List.foldl_append, List.foldl_append]
    have hdz : s ∉ seasonKeys (joinGames db (fun r => r.game_id) (defRowsOf db pid)) →
        defSeasonDistinctGames db pid s = 0 := by
      intro h
      unfold defSeasonDistinctGames
      rw [rowsInSeason_eq_nil_of_not_mem _ _ h]
      rfl
    have hkz : s ∉ seasonKeys (joinGames db (fun r => r.game_id) (sackRowsOf db pid)) →
        sackSeasonDistinctGames db pid s = 0 := by
      intro h
      unfold sackSeasonDistinctGames
      rw [rowsInSeason_eq_nil_of_not_mem _ _ h]
      rfl
    have hiz : s ∉ seasonKeys (joinGames db (fun r => r.game_id) (intRowsOf db pid)) →
        intSeasonDistinctGames db pid s = 0 := by
      intro h
      unfold intSeasonDistinctGames
      rw [rowsInSeason_eq_nil_of_not_mem _ _ h]
      rfl
    rw [foldl_max_if, foldl_max_if, foldl_max_if]
    have hvd : (if s ∈ seasonKeys (joinGames db (fun r => r.game_id) (defRowsOf db pid))
        then (mkDefSeasonPartial db pid s).games else 0) = defSeasonDistinctGames db pid s := by
      by_cases hb : s ∈ seasonKeys (joinGames db (fun r => r.game_id) (defRowsOf db pid))
      · rw [if_pos hb]
        rfl
      · rw [if_neg hb]
        exact (hdz hb).symm
    have hvk : (if s ∈ seasonKeys (joinGames db (fun r => r.game_id) (sackRowsOf db pid))
        then (mkSackSeasonPartial db pid s).games else 0) = sackSeasonDistinctGames db pid s := by
      by_cases hb : s ∈ seasonKeys (joinGames db (fun r => r.game_id) (sackRowsOf db pid))
      · rw [if_pos hb]
        rfl
      · rw [if_neg hb]
        exact (hkz hb).symm
    have hvi : (if s ∈ seasonKeys (joinGames db (fun r => r.game_id) (intRowsOf db pid))
        then (mkIntSeasonPartial db pid s).games else 0) = intSeasonDistinctGames db pid s := by
      by_cases hb : s ∈ seasonKeys (joinGames db (fun r => r.game_id) (intRowsOf db pid))
      · rw [if_pos hb]
        rfl
      · rw [if_neg hb]
        exact (hiz hb).symm
    have hzm : ∀ n : Nat, Nat.max 0 n = n := fun n => by simp [Nat.max_def]
    rw [hvd, hvk, hvi, hzm]
  · intro db choose hch limit r hr
    unfold getSeasonDefensiveRecords at hr
    have hr2 := mem_sortBy.mp (List.mem_of_mem_take hr)
    rcases List.mem_map.mp hr2 with ⟨k, hk, rfl⟩
    have hkmem := List.mem_dedup.mp hk
    rcases List.mem_map.mp hkmem with ⟨cp0, hcp0, hkeq⟩
    have hgrpne : (seasonRecordJoined db).filter
        (fun cp => decide (cp.1.player_id = k.1 ∧ cp.1.season = k.2)) ≠ [] := by
      apply List.ne_nil_of_mem (a := cp0)
      rw [List.mem_filter]
      refine ⟨hcp0, ?_⟩
      rw [← hkeq]
      simp
    have hrep := hch (((seasonRecordJoined db).filter
        (fun cp => decide (cp.1.player_id = k.1 ∧ cp.1.season = k.2))).map fun cp => cp.1)
      (fun h => hgrpne (List.map_eq_nil_iff.mp h))
    rcases List.mem_map.mp hrep with ⟨cp2, hcp2, hrepeq⟩
    have hcp2f := List.mem_filter.mp hcp2
    have hcp2key : cp2.1.player_id = k.1 ∧ cp2.1.season = k.2 := by
      have := hcp2f.2
      simpa using this
    have hcp2comb : cp2.1 ∈ seasonRecordCombined db := by
      rcases List.mem_flatMap.mp hcp2f.1 with ⟨c, hc, hcpm⟩
      rcases List.mem_map.mp hcpm with ⟨p, _, hpe⟩
      rw [← hpe]
      exact hc
    have hgames := recordPartial_games db cp2.1 hcp2comb
    have hrg : (mkSeasonRecordRow db choose k).games = cp2.1.games := by
      show (choose (((seasonRecordJoined db).filter
        (fun cp => decide (cp.1.player_id = k.1 ∧ cp.1.season = k.2))).map fun cp => cp.1)).games
        = cp2.1.games
      rw [← hrepeq]
    have hrpid : (mkSeasonRecordRow db choose k).player_id = k.1 := rfl
    have hrseason : (mkSeasonRecordRow db choose k).season = k.2 := rfl
    rw [hrg, hrpid, hrseason, ← hcp2key.1, ← hcp2key.2]
    exact hgames

/-- C6: the games value of passing aggregates is the count of distinct game ids
contributing to the sum: career passing counts the distinct game ids among the
player's passing rows (given each row's game exists), depends only on the
passing and games tables, and each season-leader row's COUNT( * ) equals the
distinct contributing game-id count whenever the contributing rows carry
pairwise-distinct game ids. -/
theorem C6_games_distinct_count :
    (∀ (db : DB) (pid : String),
        (∀ r ∈ passRowsOf db pid, ∃ g ∈ db.games, g.game_id = r.game_id) →
        (getPlayerCareerPassing db pid).games
          = countDistinct ((passRowsOf db pid).map fun r => r.game_id))
    ∧ (∀ (db db2 : DB) (pid : String),
        db.player_passing = db2.player_passing → db.games = db2.games →
        getPlayerCareerPassing db pid = getPlayerCareerPassing db2 pid)
    ∧ (∀ (db : DB) (year : Int) (row : SeasonPassLeaderRow),
        row ∈ getSeasonPassingLeaders db year →
        ((seasonPassGroup db year row.player_id).map fun t => t.1.game_id).Nodup →
        row.games = countDistinct ((seasonPassGroup db year row.player_id).map
          fun t => t.1.game_id)) := by
  refine ⟨?_, ?_, ?_⟩
  · intro db pid href
    show countDistinct ((joinGames db (fun r => r.game_id) (passRowsOf db pid)).map
      fun rg => rg.1.game_id) = _
    apply countDistinct_eq_of_mem_iff
    intro a
    constructor
    · intro ha
      rcases List.mem_map.mp ha with ⟨rg, hrg, rfl⟩
      rcases List.mem_flatMap.mp hrg with ⟨r, hr, hmm⟩
      rcases List.mem_map.mp hmm with ⟨g, _, rfl⟩
      exact List.mem_map.mpr ⟨r, hr, rfl⟩
    · intro ha
      rcases List.mem_map.mp ha with ⟨r, hr, rfl⟩
      rcases href r hr with ⟨g, hg, hgid⟩
      refine List.mem_map.mpr ⟨(r, g), ?_, rfl⟩
      exact List.mem_flatMap.mpr ⟨r, hr,
        List.mem_map.mpr ⟨g, List.mem_filter.mpr ⟨hg, by simp [hgid]⟩, rfl⟩⟩
  · intro db db2 pid h1 h2
    unfold getPlayerCareerPassing passRowsOf joinGames
    rw [h1, h2]
  · intro db year row hrow hnd
    unfold getSeasonPassingLeaders at hrow
    have h2 := mem_sortBy.mp (List.mem_of_mem_take hrow)
    rcases List.mem_map.mp h2 with ⟨pid, hpid, rfl⟩
    show (seasonPassGroup db year (mkSeasonPassRow db year pid).player_id).length
      = countDistinct ((seasonPassGroup db year (mkSeasonPassRow db year pid).player_id).map
        fun t => t.1.game_id)
    unfold countDistinct
    rw [List.dedup_eq_self.mpr hnd, List.length_map]

theorem passMatches_eq (db : DB) (pid : String) (g : Game) :
    passMatches db pid g = (passRowsOf db pid).filter fun r => decide (r.game_id = g.game_id) := by
  unfold passMatches passRowsOf
  rw [List.filter_filter]
  apply List.filter_congr
  intro r _
  simp [Bool.decide_and]

theorem rushMatches_eq (db : DB) (pid : String) (g : Game) :
    rushMatches db pid g = (rushRowsOf db pid).filter fun r => decide (r.game_id = g.game_id) := by
  unfold rushMatches rushRowsOf
  rw [List.filter_filter]
  apply List.filter_congr
  intro r _
  simp [Bool.decide_and]

theorem recvMatches_eq (db : DB) (pid : String) (g : Game) :
    recvMatches db pid g = (recvRowsOf db pid).filter fun r => decide (r.game_id = g.game_id) := by
  unfold recvMatches recvRowsOf
  rw [List.filter_filter]
  apply List.filter_congr
  intro r _
  simp [Bool.decide_and]

theorem filter_nodup_head {α : Type} (l : List α) (f : α → String)
    (hnd : (l.map f).Nodup) (y : String) :
    l.filter (fun x => decide (f x = y)) = []
      ∨ ∃ x, l.filter (fun x => decide (f x = y)) = [x] := by
  induction l with
  | nil => exact Or.inl rfl
  | cons a t ih =>
    simp only [List.map_cons, List.nodup_cons] at hnd
    obtain ⟨ha, ht⟩ := hnd
    rw [List.filter_cons]
    by_cases hay : f a = y
    · have htnil : t.filter (fun x => decide (f x = y)) = [] := by
        rw [List.filter_eq_nil_iff]
        intro x hx
        simp only [decide_eq_true_eq]
        intro hxy
        exact ha (List.mem_map.mpr ⟨x, hx, by rw [hxy]; exact hay.symm⟩)
      right
      refine ⟨a, ?_⟩
      simp [hay, htnil]
    · simp only [hay, decide_False, Bool.false_eq_true, if_false]
      exact ih ht

theorem gameLogCombos_single (db : DB) (pid : String) (g : Game)
    (h1 : passMatches db pid g = [] ∨ ∃ r, passMatches db pid g = [r])
    (h2 : rushMatches db pid g = [] ∨ ∃ r, rushMatches db pid g = [r])
    (h3 : recvMatches db pid g = [] ∨ ∃ r, recvMatches db pid g = [r]) :
    gameLogCombos db pid g
      = [{ game_id := g.game_id, season := g.season, game_date := g.game_date,
            game_type := g.game_type,
            pass := (passMatches db pid g).head?,
            rush := (rushMatches db pid g).head?,
            recv := (recvMatches db pid g).head? }] := by
  rcases h1 with h1 | ⟨r1, h1⟩ <;> rcases h2 with h2 | ⟨r2, h2⟩ <;>
    rcases h3 with h3 | ⟨r3, h3⟩ <;>
      simp [gameLogCombos, leftSide, h1, h2, h3]

theorem gameLogCombos_game_id (db : DB) (pid : String) (g : Game) :
    ∀ row ∈ gameLogCombos db pid g, row.game_id = g.game_id := by
  intro row hrow
  unfold gameLogCombos at hrow
  rcases List.mem_flatMap.mp hrow with ⟨op, _, hrow2⟩
  rcases List.mem_flatMap.mp hrow2 with ⟨oru, _, hrow3⟩
  rcases List.mem_map.mp hrow3 with ⟨oc, _, rfl⟩
  rfl

theorem head_isSome_iff_stat {α : Type} (table : List α) (gid pidf : α → String)
    (pid : String) (g : Game)
    (ms : List α)
    (hmeq : ms = table.filter fun r => decide (gid r = g.game_id ∧ pidf r = pid)) :
    ms.head?.isSome = true
      ↔ ∃ r ∈ table, pidf r = pid ∧ gid r = g.game_id := by
  subst hmeq
  constructor
  · intro h
    cases hl : table.filter (fun r => decide (gid r = g.game_id ∧ pidf r = pid)) with
    | nil => rw [hl] at h; simp at h
    | cons a t =>
      have ham : a ∈ table.filter (fun r => decide (gid r = g.game_id ∧ pidf r = pid)) := by
        rw [hl]; exact List.mem_cons_self a t
      have := List.mem_filter.mp ham
      refine ⟨a, this.1, ?_, ?_⟩
      · have h2 := this.2
        simp only [decide_eq_true_eq] at h2
        exact h2.2
      · have h2 := this.2
        simp only [decide_eq_true_eq] at h2
        exact h2.1
  · rintro ⟨r, hr, hrpid, hrgid⟩
    have hm : r ∈ table.filter (fun r => decide (gid r = g.game_id ∧ pidf r = pid)) :=
      List.mem_filter.mpr ⟨hr, by simp [hrpid, hrgid]⟩
    cases hl : table.filter (fun r => decide (gid r = g.game_id ∧ pidf r = pid)) with
    | nil => rw [hl] at hm; cases hm
    | cons a t => simp

theorem gameLogKeep_iff (seasonOpt : Option Int) (row : GameLogRow) :
    gameLogKeep seasonOpt row = true
      ↔ (((row.pass.isSome = true ∨ row.rush.isSome = true) ∨ row.recv.isSome = true)
          ∧ row.game_type ≠ "preseason"
          ∧ (seasonOpt = none ∨ seasonOpt = some row.season)) := by
  unfold gameLogKeep
  cases seasonOpt with
  | none =>
    simp only [Bool.and_eq_true, Bool.or_eq_true, decide_eq_true_eq]
    constructor
    · rintro ⟨⟨hstat, hpre⟩, _⟩
      exact ⟨hstat, hpre, Or.inl trivial⟩
    · rintro ⟨hstat, hpre, _⟩
      exact ⟨⟨hstat, hpre⟩, trivial⟩
  | some s =>
    simp only [Bool.and_eq_true, Bool.or_eq_true, decide_eq_true_eq]
    constructor
    · rintro ⟨⟨hstat, hpre⟩, hseas⟩
      exact ⟨hstat, hpre, Or.inr (by rw [hseas])⟩
    · rintro ⟨hstat, hpre, hseas⟩
      refine ⟨⟨hstat, hpre⟩, ?_⟩
      rcases hseas with hn | hv
      · cases hn
      · injection hv with hv2
        exact hv2.symm

/-- C9: given unique game ids and at most one row per offensive category per
game for the player, the game log contains exactly one row per game in which
the player recorded a passing, rushing or receiving statistic and which passes
the optional season filter, and no preseason game ever appears regardless of
that filter. -/
theorem C9_game_log (db : DB) (pid : String) (seasonOpt : Option Int)
    (hg : (db.games.map fun g => g.game_id).Nodup)
    (hp : ((passRowsOf db pid).map fun r => r.game_id).Nodup)
    (hru : ((rushRowsOf db pid).map fun r => r.game_id).Nodup)
    (hrc : ((recvRowsOf db pid).map fun r => r.game_id).Nodup) :
    (∀ row ∈ getPlayerGameLog db pid seasonOpt, row.game_type ≠ "preseason")
    ∧ ∀ g ∈ db.games,
        ((getPlayerGameLog db pid seasonOpt).countP fun row => decide (row.game_id = g.game_id))
          = if g.game_type ≠ "preseason" ∧ (seasonOpt = none ∨ seasonOpt = some g.season)
              ∧ ((∃ r ∈ db.player_passing, r.player_id = pid ∧ r.game_id = g.game_id)
                ∨ (∃ r ∈ db.player_rushing, r.player_id = pid ∧ r.game_id = g.game_id)
                ∨ (∃ r ∈ db.player_receiving, r.player_id = pid ∧ r.game_id = g.game_id))
            then 1 else 0 := by
  constructor
  · intro row hrow
    unfold getPlayerGameLog at hrow
    have h2 := mem_sortBy.mp hrow
    have h3 := (List.mem_filter.mp h2).2
    exact ((gameLogKeep_iff seasonOpt row).mp h3).2.1
  · intro g hgmem
    unfold getPlayerGameLog
    rw [countP_sortBy, List.countP_filter]
    have hz : ∀ g2 ∈ db.games, g2 ≠ g →
        ((gameLogCombos db pid g2).countP fun row =>
          decide (row.game_id = g.game_id) && gameLogKeep seasonOpt row) = 0 := by
      intro g2 hg2 hne
      rw [List.countP_eq_zero]
      intro row hrow
      have hid := gameLogCombos_game_id db pid g2 row hrow
      have hgid2 : g2.game_id ≠ g.game_id := by
        intro he
        exact hne (List.inj_on_of_nodup_map hg hg2 hgmem he)
      simp [hid, hgid2]
    rw [countP_flatMap_unique hgmem (hg.of_map) hz]
    have h1 : passMatches db pid g = [] ∨ ∃ r, passMatches db pid g = [r] := by
      rw [passMatches_eq]
      rcases filter_nodup_head (passRowsOf db pid) (fun r => r.game_id) hp g.game_id with h | ⟨x, h⟩
      · exact Or.inl h
      · exact Or.inr ⟨x, h⟩
    have h2 : rushMatches db pid g = [] ∨ ∃ r, rushMatches db pid g = [r] := by
      rw [rushMatches_eq]
      rcases filter_nodup_head (rushRowsOf db pid) (fun r => r.game_id) hru g.game_id with h | ⟨x, h⟩
      · exact Or.inl h
      · exact Or.inr ⟨x, h⟩
    have h3 : recvMatches db pid g = [] ∨ ∃ r, recvMatches db pid g = [r] := by
      rw [recvMatches_eq]
      rcases filter_nodup_head (recvRowsOf db pid) (fun r => r.game_id) hrc g.game_id with h | ⟨x, h⟩
      · exact Or.inl h
      · exact Or.inr ⟨x, h⟩
    rw [gameLogCombos_single db pid g h1 h2 h3]
    have hpass := head_isSome_iff_stat db.player_passing (fun r => r.game_id)
      (fun r => r.player_id) pid g (passMatches db pid g) rfl
    have hrush := head_isSome_iff_stat db.player_rushing (fun r => r.game_id)
      (fun r => r.player_id) pid g (rushMatches db pid g) rfl
    have hrecv := head_isSome_iff_stat db.player_receiving (fun r => r.game_id)
      (fun r => r.player_id) pid g (recvMatches db pid g) rfl
    have hcount : ∀ (p : GameLogRow → Bool) (x : GameLogRow),
        List.countP p [x] = if p x = true then 1 else 0 := by
      intro p x
      by_cases hb : p x = true
      · simp [List.countP_cons, List.countP_nil, hb]
      · simp [List.countP_cons, List.countP_nil, hb]
    rw [hcount]
    apply if_congr _ rfl rfl
    constructor
    · intro hb
      rw [Bool.and_eq_true] at hb
      obtain ⟨hstat, hpre, hseas⟩ := (gameLogKeep_iff seasonOpt _).mp hb.2
      refine ⟨hpre, hseas, ?_⟩
      rcases hstat with (hs | hs) | hs
      · exact Or.inl (hpass.mp hs)
      · exact Or.inr (Or.inl (hrush.mp hs))
      · exact Or.inr (Or.inr (hrecv.mp hs))
    · rintro ⟨hpre, hseas, hstat⟩
      rw [Bool.and_eq_true]
      refine ⟨by simp, (gameLogKeep_iff seasonOpt _).mpr ⟨?_, hpre, hseas⟩⟩
      rcases hstat with hs | hs | hs
      · exact Or.inl (Or.inl (hpass.mpr hs))
      · exact Or.inl (Or.inr (hrush.mpr hs))
      · exact Or.inr (hrecv.mpr hs)

theorem chooseHead_mem : ∀ (l : List RecordPartial), l ≠ [] → chooseHead l ∈ l := by
  intro l hl
  cases l with
  | nil => exact absurd rfl hl
  | cons a t => simp [chooseHead]

/-- Counterexample to C5 as stated: at season scope, for a player with a
defense row and a sack row in the same regular-season 2000 game, the season
summary's games value is 1 rather than the claimed sum 2 of the per-table
distinct-game counts. -/
theorem C5_sum_games_counterexample :
    ((getPlayerSeasonDefense exDB4 "P").map fun r => (r.season, r.games)) = [(2000, 1)]
    ∧ defSeasonDistinctGames exDB4 "P" 2000 + sackSeasonDistinctGames exDB4 "P" 2000
        + intSeasonDistinctGames exDB4 "P" 2000 = 2
    ∧ ¬ (∀ r ∈ getPlayerSeasonDefense exDB4 "P",
          r.games = defSeasonDistinctGames exDB4 "P" r.season
            + sackSeasonDistinctGames exDB4 "P" r.season
            + intSeasonDistinctGames exDB4 "P" r.season) := by decide

/-- Witness for C5 at exDB4: the career universe row sums the three counts, the
season summary row takes their maximum, and the season-records row's games
value is one of the three counts. -/
theorem C5_defensive_games_counts_witness :
    ((mkDefLeaderRow exDB4 "P" ⟨"P", "Pat Defender", some "url-p", some "DE"⟩).games
        = defLeadDistinctGames exDB4 "P" + sackLeadDistinctGames exDB4 "P"
          + intLeadDistinctGames exDB4 "P")
    ∧ ((mkPlayerSeasonDefRow exDB4 "P" 2000).games
        = Nat.max (Nat.max (defSeasonDistinctGames exDB4 "P" 2000)
            (sackSeasonDistinctGames exDB4 "P" 2000)) (intSeasonDistinctGames exDB4 "P" 2000))
    ∧ ((mkSeasonRecordRow exDB4 chooseHead ("P", 2000)).games
        = defRecordDistinctGames exDB4 "P" 2000
      ∨ (mkSeasonRecordRow exDB4 chooseHead ("P", 2000)).games
        = sackRecordDistinctGames exDB4 "P" 2000
      ∨ (mkSeasonRecordRow exDB4 chooseHead ("P", 2000)).games
        = intRecordDistinctGames exDB4 "P" 2000) :=
  ⟨C5_defensive_games_counts.2.1 exDB4
      (mkDefLeaderRow exDB4 "P" ⟨"P", "Pat Defender", some "url-p", some "DE"⟩) (by decide),
    C5_defensive_games_counts.2.2.1 exDB4 "P" (mkPlayerSeasonDefRow exDB4 "P" 2000) (by decide),
    C5_defensive_games_counts.2.2.2 exDB4 chooseHead chooseHead_mem 25
      (mkSeasonRecordRow exDB4 chooseHead ("P", 2000)) (by decide)⟩

/-- Witness for C6 at a store where recognized player q1 has one passing row in
a regular-season 2005 game. -/
theorem C6_games_distinct_count_witness :
    ((getPlayerCareerPassing exW6 "q1").games
        = countDistinct ((passRowsOf exW6 "q1").map fun r => r.game_id))
    ∧ getPlayerCareerPassing exW6 "q1" = getPlayerCareerPassing exW6b "q1"
    ∧ ((mkSeasonPassRow exW6 2005 "q1").games
        = countDistinct ((seasonPassGroup exW6 2005 "q1").map fun t => t.1.game_id)) :=
  ⟨C6_games_distinct_count.1 exW6 "q1" (by decide),
    C6_games_distinct_count.2.1 exW6 exW6b "q1" (by decide) (by decide),
    C6_games_distinct_count.2.2 exW6 2005 (mkSeasonPassRow exW6 2005 "q1")
      (by decide) (by decide)⟩

/-- Witness for C9 at a store with one regular-season and one preseason 2005
game, where player q1 has a passing row only in the regular-season game. -/
theorem C9_game_log_witness :
    (∀ row ∈ getPlayerGameLog exW6 "q1" none, row.game_type ≠ "preseason")
    ∧ ∀ g ∈ exW6.games,
        ((getPlayerGameLog exW6 "q1" none).countP fun row => decide (row.game_id = g.game_id))
          = if g.game_type ≠ "preseason"
              ∧ ((none : Option Int) = none ∨ (none : Option Int) = some g.season)
              ∧ ((∃ r ∈ exW6.player_passing, r.player_id = "q1" ∧ r.game_id = g.game_id)
                ∨ (∃ r ∈ exW6.player_rushing, r.player_id = "q1" ∧ r.game_id = g.game_id)
                ∨ (∃ r ∈ exW6.player_receiving, r.player_id = "q1" ∧ r.game_id = g.game_id))
            then 1 else 0 :=
  C9_game_log exW6 "q1" none (by decide) (by decide) (by decide) (by decide)

end SaintsStats
